import Mathlib

/-!
# externalhandler: the encrypted command pipeline of the REST gateway

A shallow embedding of `src/restinterface/externalhandler/externalhandler.go`.

* Dynamically typed Go values (`interface{}`) are the inductive `GoVal`; a
  `map[string]interface{}` is an association list read with `GoMap.get`.
* The collaborators of the handler (key, network helper, sender resolver,
  orchestrator, secure manager) are fields of `Handler`; every call to one of
  them is recorded, in program order, in the `calls` of the `Result`.
* A run-time panic of the Go code (an index out of range, a failed
  single-value type assertion) is the outcome `Outcome.panic`.
-/

namespace ExternalHandler

/-! ## Go values -/

/-- A dynamically typed Go value as held in an `interface{}`: the shapes that
decoding JSON produces, and the nil map of type `map[string]interface{}`. The
payload of a number is never inspected by the handlers; an integer stands for
the `float64`. -/
inductive GoVal where
  | nil
  | bool (b : Bool)
  | num (n : Int)
  | str (s : String)
  | slice (xs : List GoVal)
  | map (kvs : List (String × GoVal))
  | nilMap

/-- A value of type `map[string]interface{}`, in insertion order. -/
abbrev GoMap := List (String × GoVal)

/-- Indexing `m[key]`: the value stored under `key`, or the nil interface when the key is absent. -/
def GoMap.get : GoMap → String → GoVal
  | [], _ => GoVal.nil
  | (k, v) :: rest, key => if k = key then v else GoMap.get rest key

/-- The keys of a map, in insertion order. -/
def GoMap.keys (m : GoMap) : List String := m.map Prod.fst

/-- Type assertion `v.(string)` in its two-value form: `none` stands for `ok == false`. -/
def GoVal.assertString : GoVal → Option String
  | GoVal.str s => some s
  | _ => none

/-- Type assertion `v.([]interface{})` in its two-value form. -/
def GoVal.assertSlice : GoVal → Option (List GoVal)
  | GoVal.slice xs => some xs
  | _ => none

/-- Type assertion `v.(map[string]interface{})`; in the single-value form used by
the handlers `none` is a run-time panic. -/
def GoVal.assertMap : GoVal → Option GoMap
  | GoVal.map kvs => some kvs
  | GoVal.nilMap => some []
  | _ => none

/-! ## Library functions used by the handlers -/

/-- Splitting of a character sequence at every occurrence of `sep`. -/
def splitChars (sep : Char) : List Char → List (List Char)
  | [] => [[]]
  | c :: cs =>
    if c = sep then [] :: splitChars sep cs
    else
      match splitChars sep cs with
      | [] => [[c]]
      | seg :: segs => (c :: seg) :: segs

/-- Go `strings.Split(s, sep)` for a one-character separator. -/
def stringsSplit (s : String) (sep : Char) : List String :=
  (splitChars sep s.data).map String.mk

/-- Whether `sub` occurs as a contiguous run in the character sequence. -/
def containsChars (sub : List Char) : List Char → Bool
  | [] => sub.isEmpty
  | c :: cs => sub.isPrefixOf (c :: cs) || containsChars sub cs

/-- Go `strings.Contains(s, substr)`. -/
def stringsContains (s substr : String) : Bool :=
  containsChars substr.data s.data

/-- The value of a decimal digit, `none` for any other character. -/
def digitVal (c : Char) : Option Nat :=
  if 48 ≤ c.toNat ∧ c.toNat ≤ 57 then some (c.toNat - 48) else none

/-- The number written by a non-empty run of decimal digits. -/
def parseDigits : List Char → Nat → Option Nat
  | [], acc => some acc
  | c :: cs, acc =>
    match digitVal c with
    | none => none
    | some d => parseDigits cs (10 * acc + d)

/-- Go `strconv.Atoi(s)` with a 64-bit `int`: an optional sign, then at least one
decimal digit and nothing else, the value within the range of `int`; `none`
stands for a non-nil error. -/
def Atoi (s : String) : Option Int :=
  let body (neg : Bool) (ds : List Char) : Option Int :=
    match ds with
    | [] => none
    | _ :: _ =>
      match parseDigits ds 0 with
      | none => none
      | some n =>
        let v : Int := if neg then -(n : Int) else (n : Int)
        if -(2 : Int) ^ 63 ≤ v ∧ v < (2 : Int) ^ 63 then some v else none
  match s.data with
  | [] => none
  | c :: cs =>
    if c = '-' then body true cs
    else if c = '+' then body false cs
    else body false (c :: cs)

/-- Modelled from the spec: `common.HasElem` of package `db/bolt/common`, which is
not among the sources; the spec has the caller authorized when it "appears in
the host's own enumerated IP address set". -/
def HasElem (ips : List String) (addr : String) : Bool :=
  ips.contains addr

/-! ## Types of the collaborating packages -/

/-- The request body and the encrypted response: a sequence of bytes. -/
abbrev Bytes := List UInt8

/-- One execution descriptor, `orchestrationapi.RequestServiceInfo`. -/
structure RequestServiceInfo where
  ExecutionType : String
  ExeCmd : List String
  deriving DecidableEq, Repr

/-- The typed service request, `orchestrationapi.ReqeustService` (the source's spelling). -/
structure ReqeustService where
  SelfSelection : Bool
  ServiceName : String
  ServiceInfo : List RequestServiceInfo
  ServiceRequester : String
  deriving DecidableEq, Repr

/-- The target part of the orchestrator's answer, `orchestrationapi.TargetInfo`. -/
structure TargetInfo where
  ExecutionType : String
  Target : String
  deriving DecidableEq, Repr

/-- The orchestrator's answer, `orchestrationapi.ResponseService`. -/
structure ResponseService where
  Message : String
  ServiceName : String
  RemoteTargetInfo : TargetInfo
  deriving DecidableEq, Repr

/-- One container descriptor, `securemgr.RequestDescInfo`. -/
structure RequestDescInfo where
  ContainerHash : String
  deriving DecidableEq, Repr

/-- The typed secure-manager request, `securemgr.RequestSecureMgr`. -/
structure RequestSecureMgr where
  SecureInsName : String
  CmdType : String
  Desc : List RequestDescInfo
  deriving DecidableEq, Repr

/-- The secure manager's answer, `securemgr.ResponseSecureMgr`. -/
structure ResponseSecureMgr where
  Message : String
  SecureCmpName : String
  deriving DecidableEq, Repr

/-- The incoming `*http.Request`, as far as the handlers read it. -/
structure Request where
  RemoteAddr : String
  Body : Bytes

/-- The handler and everything it reaches: the two capability flags and
capabilities, the key (`cipher.HasCipher`), the network helper, the sender
resolver, and the two message constants `orchestrationapi.INVALID_PARAMETER`
and `securemgr.INVALID_PARAMETER`, which are declared outside the sources. A
Go call that returns a non-nil error is `none`. -/
structure Handler where
  isSetAPI : Bool
  apiRequestService : ReqeustService → ResponseService
  isSetSecureAPI : Bool
  sapiRequestSecureMgr : RequestSecureMgr → ResponseSecureMgr
  IsSetKey : Bool
  DecryptByteToJSON : Bytes → Option GoMap
  EncryptJSONToByte : GoMap → Option Bytes
  GetIPs : Option (List String)
  GetNameByPort : Int → Option String
  orchestrationINVALID_PARAMETER : String
  securemgrINVALID_PARAMETER : String

/-- A call made by a handler to one of its collaborators. -/
inductive Call where
  | GetIPs
  | DecryptByteToJSON (body : Bytes)
  | GetNameByPort (port : Int)
  | RequestService (req : ReqeustService)
  | RequestSecureMgr (req : RequestSecureMgr)
  | EncryptJSONToByte (respJSONMsg : GoMap)

/-- How a handler run ends: `helper.Response(w, status)` (a status and no body),
`helper.ResponseJSON(w, body, status)`, or a run-time panic. -/
inductive Outcome where
  | Response (status : Nat)
  | ResponseJSON (body : Bytes) (status : Nat)
  | panic
  deriving DecidableEq, Repr

/-- A handler run: the collaborator calls in program order, and the outcome. -/
structure Result where
  calls : List Call
  outcome : Outcome

def StatusOK : Nat := 200
def StatusNotAcceptable : Nat := 406
def StatusServiceUnavailable : Nat := 503

/-- How a validation loop leaves: with the built list, by `goto SEND_RESP` after
setting `INVALID_PARAMETER`, or by a run-time panic. -/
inductive LoopExit (α : Type) where
  | done (v : α)
  | invalid
  | panic

/-! ## APIV1RequestServicePost -/

/-- Lines 110-119: the address and the port text taken from `RemoteAddr`; `none` is
the index-out-of-range panic of `reqAddr[1]`. -/
def serviceOrigin (RemoteAddr : String) : Option (String × String) :=
  let reqAddr := stringsSplit RemoteAddr ':'
  if stringsContains RemoteAddr "::1" then
    match reqAddr.getLast? with
    | some portStr => some ("localhost", portStr)
    | none => none
  else
    match reqAddr[0]?, reqAddr[1]? with
    | some addr, some portStr => some (addr, portStr)
    | _, _ => none

/-- Lines 125 and 275: the condition under which the origin is answered 406. -/
def originRefused (ips : List String) (addr : String) : Bool :=
  addr != "localhost" && addr != "127.0.0.1" && HasElem ips addr == false

/-- Lines 220-222: the inner loop `ExeCmd[idy] = cmd.(string)`; `none` is the panic of
the single-value type assertion. -/
def exeCmdLoop : List GoVal → Option (List String)
  | [] => some []
  | cmd :: rest =>
    match cmd.assertString with
    | none => none
    | some s =>
      match exeCmdLoop rest with
      | none => none
      | some ss => some (s :: ss)

/-- Lines 202-223: the loop over `executeEnvs`. -/
def serviceInfoLoop : List GoVal → LoopExit (List RequestServiceInfo)
  | [] => LoopExit.done []
  | executeEnv :: rest =>
    match executeEnv.assertMap with
    | none => LoopExit.panic
    | some tmp =>
      match (tmp.get "ExecutionType").assertString with
      | none => LoopExit.invalid
      | some exeType =>
        match (tmp.get "ExecCmd").assertSlice with
        | none => LoopExit.invalid
        | some exeCmd =>
          match exeCmdLoop exeCmd with
          | none => LoopExit.panic
          | some cmds =>
            match serviceInfoLoop rest with
            | LoopExit.done infos =>
              LoopExit.done ({ ExecutionType := exeType, ExeCmd := cmds } :: infos)
            | LoopExit.invalid => LoopExit.invalid
            | LoopExit.panic => LoopExit.panic

/-- Lines 234-247, label `SEND_RESP`: build the response mapping, encrypt it, answer. -/
def serviceSendResp (h : Handler) (calls : List Call) (responseMsg responseName : String)
    (responseTargetInfo : GoVal) : Result :=
  let respJSONMsg : GoMap :=
    [("Message", GoVal.str responseMsg), ("ServiceName", GoVal.str responseName),
     ("RemoteTargetInfo", responseTargetInfo)]
  match h.EncryptJSONToByte respJSONMsg with
  | none => ⟨calls ++ [Call.EncryptJSONToByte respJSONMsg], Outcome.Response StatusServiceUnavailable⟩
  | some respEncryptBytes =>
    ⟨calls ++ [Call.EncryptJSONToByte respJSONMsg], Outcome.ResponseJSON respEncryptBytes StatusOK⟩

/-- Lines 161-174: the requester looked up by the source port. The calls made, and
the name found; `none` stands for `isParseRequesterFromPort == false`. -/
def resolveByPort (h : Handler) (portStr : String) : List Call × Option String :=
  match Atoi portStr with
  | none => ([], none)
  | some port =>
    match h.GetNameByPort port with
    | none => ([Call.GetNameByPort port], none)
    | some requester => ([Call.GetNameByPort port], some requester)

/-- Lines 150-247: the handler from the decrypted `appCommand` on; `calls` are the
calls made so far. -/
def serviceCommand (h : Handler) (calls : List Call) (portStr : String) (appCommand : GoMap) :
    Result :=
  let selfSelection :=
    match (appCommand.get "SelfSelection").assertString with
    | some s => s
    | none => "true"
  let SelfSelection : Bool := if selfSelection = "true" then true else false
  let byPort := resolveByPort h portStr
  let calls := calls ++ byPort.1
  -- lines 176-184
  let requester? : Option String :=
    match byPort.2 with
    | some requester => some requester
    | none => (appCommand.get "ServiceRequester").assertString
  match requester? with
  | none => serviceSendResp h calls h.orchestrationINVALID_PARAMETER "" GoVal.nilMap
  | some ServiceRequester =>
    match (appCommand.get "ServiceName").assertString with
    | none => serviceSendResp h calls h.orchestrationINVALID_PARAMETER "" GoVal.nilMap
    | some name =>
      match (appCommand.get "ServiceInfo").assertSlice with
      | none => serviceSendResp h calls h.orchestrationINVALID_PARAMETER name GoVal.nilMap
      | some executeEnvs =>
        match serviceInfoLoop executeEnvs with
        | LoopExit.panic => ⟨calls, Outcome.panic⟩
        | LoopExit.invalid =>
          serviceSendResp h calls h.orchestrationINVALID_PARAMETER name GoVal.nilMap
        | LoopExit.done ServiceInfo =>
          let serviceInfos : ReqeustService :=
            { SelfSelection := SelfSelection, ServiceName := name,
              ServiceInfo := ServiceInfo, ServiceRequester := ServiceRequester }
          let resp := h.apiRequestService serviceInfos
          let responseTargetInfo : GoVal :=
            GoVal.map [("ExecutionType", GoVal.str resp.RemoteTargetInfo.ExecutionType),
                       ("Target", GoVal.str resp.RemoteTargetInfo.Target)]
          serviceSendResp h (calls ++ [Call.RequestService serviceInfos])
            resp.Message resp.ServiceName responseTargetInfo

/-- The handler `APIV1RequestServicePost` (lines 98-248). -/
def APIV1RequestServicePost (h : Handler) (r : Request) : Result :=
  if h.isSetAPI = false then ⟨[], Outcome.Response StatusServiceUnavailable⟩
  else if h.IsSetKey = false then ⟨[], Outcome.Response StatusServiceUnavailable⟩
  else
    match serviceOrigin r.RemoteAddr with
    | none => ⟨[], Outcome.panic⟩
    | some (addr, portStr) =>
      match h.GetIPs with
      | none => ⟨[Call.GetIPs], Outcome.Response StatusServiceUnavailable⟩
      | some ips =>
        if originRefused ips addr then
          ⟨[Call.GetIPs], Outcome.Response StatusNotAcceptable⟩
        else
          match h.DecryptByteToJSON r.Body with
          | none =>
            ⟨[Call.GetIPs, Call.DecryptByteToJSON r.Body],
              Outcome.Response StatusServiceUnavailable⟩
          | some appCommand =>
            serviceCommand h [Call.GetIPs, Call.DecryptByteToJSON r.Body] portStr appCommand

/-! ## APIV1RequestSecuremgrPost -/

/-- Lines 263-269: the address taken from `RemoteAddr`. -/
def securemgrOrigin (RemoteAddr : String) : Option String :=
  let reqAddr := stringsSplit RemoteAddr ':'
  if stringsContains RemoteAddr "::1" then some "localhost"
  else reqAddr[0]?

/-- Lines 319-336: the loop over `containerDescs`. -/
def descLoop : List GoVal → LoopExit (List RequestDescInfo)
  | [] => LoopExit.done []
  | containerDesc :: rest =>
    match containerDesc.assertMap with
    | none => LoopExit.panic
    | some tmp =>
      match (tmp.get "ContainerHash").assertString with
      | none => LoopExit.invalid
      | some hash =>
        match descLoop rest with
        | LoopExit.done descs => LoopExit.done ({ ContainerHash := hash } :: descs)
        | LoopExit.invalid => LoopExit.invalid
        | LoopExit.panic => LoopExit.panic

/-- Lines 344-356, label `SEND_RESP` of the secure-manager handler. -/
def securemgrSendResp (h : Handler) (calls : List Call) (responseMsg responseName : String) :
    Result :=
  let respJSONMsg : GoMap :=
    [("Message", GoVal.str responseMsg), ("SecureCmpName", GoVal.str responseName)]
  match h.EncryptJSONToByte respJSONMsg with
  | none => ⟨calls ++ [Call.EncryptJSONToByte respJSONMsg], Outcome.Response StatusServiceUnavailable⟩
  | some respEncryptBytes =>
    ⟨calls ++ [Call.EncryptJSONToByte respJSONMsg], Outcome.ResponseJSON respEncryptBytes StatusOK⟩

/-- Lines 339-342 and the jump target: dispatch `containerInfos` and answer with the result. -/
def securemgrDispatch (h : Handler) (calls : List Call) (containerInfos : RequestSecureMgr) :
    Result :=
  let resp := h.sapiRequestSecureMgr containerInfos
  securemgrSendResp h (calls ++ [Call.RequestSecureMgr containerInfos])
    resp.Message resp.SecureCmpName

/-- Lines 297-356: the handler from the decrypted `appCommand` on. -/
def securemgrCommand (h : Handler) (calls : List Call) (appCommand : GoMap) : Result :=
  let SecureInsName : String :=
    match (appCommand.get "SecureMgr").assertString with
    | some s => s
    | none => ""
  let CmdType : String :=
    match (appCommand.get "CmdType").assertString with
    | some s => s
    | none => ""
  if CmdType = "addHashCWL" ∨ CmdType = "delHashCWL" then
    match (appCommand.get "Desc").assertSlice with
    | none => securemgrSendResp h calls h.securemgrINVALID_PARAMETER "verifier"
    | some containerDescs =>
      match descLoop containerDescs with
      | LoopExit.panic => ⟨calls, Outcome.panic⟩
      | LoopExit.invalid => securemgrSendResp h calls h.securemgrINVALID_PARAMETER "verifier"
      | LoopExit.done Desc =>
        securemgrDispatch h calls
          { SecureInsName := SecureInsName, CmdType := CmdType, Desc := Desc }
  else
    securemgrDispatch h calls { SecureInsName := SecureInsName, CmdType := CmdType, Desc := [] }

/-- The handler `APIV1RequestSecuremgrPost` (lines 251-357). -/
def APIV1RequestSecuremgrPost (h : Handler) (r : Request) : Result :=
  if h.isSetSecureAPI = false then ⟨[], Outcome.Response StatusServiceUnavailable⟩
  else if h.IsSetKey = false then ⟨[], Outcome.Response StatusServiceUnavailable⟩
  else
    match securemgrOrigin r.RemoteAddr with
    | none => ⟨[], Outcome.panic⟩
    | some addr =>
      match h.GetIPs with
      | none => ⟨[Call.GetIPs], Outcome.Response StatusServiceUnavailable⟩
      | some ips =>
        if originRefused ips addr then
          ⟨[Call.GetIPs], Outcome.Response StatusNotAcceptable⟩
        else
          match h.DecryptByteToJSON r.Body with
          | none =>
            ⟨[Call.GetIPs, Call.DecryptByteToJSON r.Body],
              Outcome.Response StatusServiceUnavailable⟩
          | some appCommand =>
            securemgrCommand h [Call.GetIPs, Call.DecryptByteToJSON r.Body] appCommand

/-! ## Reading a run -/

/-- The request of a `RequestService` call. -/
def serviceRequestOf : Call → Option ReqeustService
  | Call.RequestService req => some req
  | _ => none

/-- The request of a `RequestSecureMgr` call. -/
def securemgrRequestOf : Call → Option RequestSecureMgr
  | Call.RequestSecureMgr req => some req
  | _ => none

/-- The mapping of an `EncryptJSONToByte` call. -/
def encryptedOf : Call → Option GoMap
  | Call.EncryptJSONToByte m => some m
  | _ => none

/-- The body of a `DecryptByteToJSON` call. -/
def decryptedOf : Call → Option Bytes
  | Call.DecryptByteToJSON b => some b
  | _ => none

/-- The port of a `GetNameByPort` call. -/
def resolvedOf : Call → Option Int
  | Call.GetNameByPort port => some port
  | _ => none

/-- The requests passed to the orchestrator's `RequestService`, in order. -/
def Result.serviceRequests (r : Result) : List ReqeustService :=
  r.calls.filterMap serviceRequestOf

/-- The requests passed to the secure manager's `RequestSecureMgr`, in order. -/
def Result.securemgrRequests (r : Result) : List RequestSecureMgr :=
  r.calls.filterMap securemgrRequestOf

/-- The response mappings handed to `EncryptJSONToByte`, in order. -/
def Result.encrypted (r : Result) : List GoMap :=
  r.calls.filterMap encryptedOf

/-- The bodies handed to `DecryptByteToJSON`, in order. -/
def Result.decrypted (r : Result) : List Bytes :=
  r.calls.filterMap decryptedOf

/-- The ports handed to `GetNameByPort`, in order. -/
def Result.resolved (r : Result) : List Int :=
  r.calls.filterMap resolvedOf

/-- The request reaches the parsing of `APIV1RequestServicePost` with port text
`portStr` and decrypted mapping `appCommand`: API and key are set, the origin
is read and authorized, decryption succeeds. -/
def ServiceReachesParsing (h : Handler) (r : Request) (portStr : String)
    (appCommand : GoMap) : Prop :=
  h.isSetAPI = true ∧ h.IsSetKey = true ∧
  ∃ addr ips, serviceOrigin r.RemoteAddr = some (addr, portStr) ∧ h.GetIPs = some ips ∧
    originRefused ips addr = false ∧ h.DecryptByteToJSON r.Body = some appCommand

/-- The request reaches the parsing of `APIV1RequestSecuremgrPost` with decrypted
mapping `appCommand`. -/
def SecuremgrReachesParsing (h : Handler) (r : Request) (appCommand : GoMap) : Prop :=
  h.isSetSecureAPI = true ∧ h.IsSetKey = true ∧
  ∃ addr ips, securemgrOrigin r.RemoteAddr = some addr ∧ h.GetIPs = some ips ∧
    originRefused ips addr = false ∧ h.DecryptByteToJSON r.Body = some appCommand

/-! ## A concrete handler for evaluating the code -/

/-- A handler with both capabilities and the key set, whose key decrypts every
body to `payload`, whose network helper answers `ips`, whose sender resolver
answers `byPort` for every port, and whose capabilities echo the request. -/
def sampleHandler (payload : Option GoMap) (ips : Option (List String))
    (byPort : Option String) : Handler where
  isSetAPI := true
  apiRequestService := fun req =>
    { Message := "ERROR_NONE", ServiceName := req.ServiceName,
      RemoteTargetInfo := { ExecutionType := "native", Target := "10.0.0.2" } }
  isSetSecureAPI := true
  sapiRequestSecureMgr := fun req => { Message := "ERROR_NONE", SecureCmpName := req.SecureInsName }
  IsSetKey := true
  DecryptByteToJSON := fun _ => payload
  EncryptJSONToByte := fun _ => some [1]
  GetIPs := ips
  GetNameByPort := fun _ => byPort
  orchestrationINVALID_PARAMETER := "INVALID_PARAMETER"
  securemgrINVALID_PARAMETER := "INVALID_PARAMETER"

/-! ## Sample requests -/

/-- A service payload without `ServiceName`, all other fields valid. -/
def payloadNoName : GoMap :=
  [("ServiceRequester", GoVal.str "app"),
   ("ServiceInfo", GoVal.slice
      [GoVal.map [("ExecutionType", GoVal.str "native"),
                  ("ExecCmd", GoVal.slice [GoVal.str "ls", GoVal.str "-l"])]])]

/-- One well-formed `ServiceInfo` entry. -/
def validEntry : GoVal :=
  GoVal.map [("ExecutionType", GoVal.str "native"),
             ("ExecCmd", GoVal.slice [GoVal.str "ls", GoVal.str "-l"])]

/-- A fully valid service payload for the service `svc`, preceded by the fields `extra`. -/
def servicePayload (extra : GoMap) : GoMap :=
  extra ++ [("ServiceName", GoVal.str "svc"), ("ServiceInfo", GoVal.slice [validEntry])]

/-- The payload of the spec's test: element 0 is valid, element 1 has no `ExecCmd`. -/
def payloadSecondMalformed : GoMap :=
  [("ServiceName", GoVal.str "svc"),
   ("ServiceInfo", GoVal.slice
      [validEntry, GoVal.map [("ExecutionType", GoVal.str "native")]])]

/-- A payload whose `ServiceInfo` is a sequence of two maps: element 0 has a string
`ExecutionType` and the sequence `ExecCmd = ["ls", 5]`, element 1 has no `ExecCmd`. -/
def payloadNumberThenMalformed : GoMap :=
  [("ServiceName", GoVal.str "svc"),
   ("ServiceInfo", GoVal.slice
      [GoVal.map [("ExecutionType", GoVal.str "native"),
                  ("ExecCmd", GoVal.slice [GoVal.str "ls", GoVal.num 5])],
       GoVal.map [("ExecutionType", GoVal.str "native")]])]

/-- A secure-manager payload with command type `cmd`, preceded by the fields `extra`. -/
def securemgrPayload (cmd : String) (extra : GoMap) : GoMap :=
  extra ++ [("SecureMgr", GoVal.str "verifier"), ("CmdType", GoVal.str cmd)]

/-- A request from the remote IPv6 address `2001:db8::1234`, source port 5000. -/
def remoteV6Request : Request := { RemoteAddr := "[2001:db8::1234]:5000", Body := [7] }

/-- A request whose `RemoteAddr` holds no colon. -/
def colonlessRequest : Request := { RemoteAddr := "10.0.0.5", Body := [7] }

/-- A request from the remote address `10.0.0.5`, source port 4000. -/
def remoteRequest : Request := { RemoteAddr := "10.0.0.5:4000", Body := [7] }

/-- A request from the loopback address `127.0.0.1`, source port 4000. -/
def localRequest : Request := { RemoteAddr := "127.0.0.1:4000", Body := [7] }

/-- A service payload for `svc` whose `ServiceInfo` is the sequence `envs`. -/
def payloadWithInfo (envs : List GoVal) : GoMap :=
  [("ServiceRequester", GoVal.str "app"), ("ServiceName", GoVal.str "svc"),
   ("ServiceInfo", GoVal.slice envs)]

/-- An `addHashCWL` payload whose `Desc` is the sequence `descs`. -/
def payloadWithDesc (descs : List GoVal) : GoMap :=
  [("SecureMgr", GoVal.str "verifier"), ("CmdType", GoVal.str "addHashCWL"),
   ("Desc", GoVal.slice descs)]

/-- A second well-formed `ServiceInfo` entry, with an empty `ExecCmd`. -/
def containerEntry : GoVal :=
  GoVal.map [("ExecCmd", GoVal.slice []), ("ExecutionType", GoVal.str "container")]

/-! ## Shapes of payloads -/

/-- The `ServiceInfo` element `e` is a map that holds the string `ExecutionType` of `d` and,
under `ExecCmd`, the sequence of the strings of `d`, in order. -/
def EntryDescribes (e : GoVal) (d : RequestServiceInfo) : Prop :=
  ∃ tmp, e.assertMap = some tmp ∧ tmp.get "ExecutionType" = GoVal.str d.ExecutionType ∧
    tmp.get "ExecCmd" = GoVal.slice (d.ExeCmd.map GoVal.str)

/-- The `ServiceInfo` element `e` is a map without a string `ExecutionType` or without a
sequence `ExecCmd`. -/
def EntryMalformed (e : GoVal) : Prop :=
  ∃ tmp, e.assertMap = some tmp ∧
    ((∀ s, tmp.get "ExecutionType" ≠ GoVal.str s) ∨ (∀ xs, tmp.get "ExecCmd" ≠ GoVal.slice xs))

/-- The requester of the request resolves: by the source port, or else by the payload's
`ServiceRequester` string. -/
def RequesterResolves (h : Handler) (portStr : String) (appCommand : GoMap) : Prop :=
  (∃ port p, Atoi portStr = some port ∧ h.GetNameByPort port = some p) ∨
  ∃ q, appCommand.get "ServiceRequester" = GoVal.str q

/-- The service payload fails one of the checks of lines 176-217, and `name` is the service
name known at that point: the requester does not resolve or `ServiceName` is no string (the
name is empty); or, with both in place, `ServiceInfo` is no sequence, or it is a sequence whose
first element that is not well formed is a map without a string `ExecutionType` or without a
sequence `ExecCmd`. -/
def ServiceValidationFails (h : Handler) (portStr : String) (appCommand : GoMap)
    (name : String) : Prop :=
  (name = "" ∧ (¬ RequesterResolves h portStr appCommand ∨
    ∀ s, appCommand.get "ServiceName" ≠ GoVal.str s)) ∨
  (RequesterResolves h portStr appCommand ∧ appCommand.get "ServiceName" = GoVal.str name ∧
    ((∀ xs, appCommand.get "ServiceInfo" ≠ GoVal.slice xs) ∨
      ∃ pre infos e post, appCommand.get "ServiceInfo" = GoVal.slice (pre ++ e :: post) ∧
        List.Forall₂ EntryDescribes pre infos ∧ EntryMalformed e))

/-- The `Desc` element `e` is a map that holds the string `ContainerHash` of `d`. -/
def DescDescribes (e : GoVal) (d : RequestDescInfo) : Prop :=
  ∃ tmp, e.assertMap = some tmp ∧ tmp.get "ContainerHash" = GoVal.str d.ContainerHash

/-- The payload names one of the two mutating commands. -/
def MutatingCmd (appCommand : GoMap) : Prop :=
  appCommand.get "CmdType" = GoVal.str "addHashCWL" ∨
  appCommand.get "CmdType" = GoVal.str "delHashCWL"

/-- The secure-manager payload fails one of the checks of lines 310-334: the command is
mutating, and `Desc` is no sequence, or it is a sequence whose first element that is not well
formed is a map without a string `ContainerHash`. -/
def SecuremgrValidationFails (appCommand : GoMap) : Prop :=
  MutatingCmd appCommand ∧
  ((∀ xs, appCommand.get "Desc" ≠ GoVal.slice xs) ∨
    ∃ pre descs e post tmp, appCommand.get "Desc" = GoVal.slice (pre ++ e :: post) ∧
      List.Forall₂ DescDescribes pre descs ∧ e.assertMap = some tmp ∧
      ∀ s, tmp.get "ContainerHash" ≠ GoVal.str s)

/-- The text of `RemoteAddr` before its first colon, the whole text when it holds none. -/
def beforeFirstColon (RemoteAddr : String) : String :=
  String.mk (RemoteAddr.data.takeWhile (fun c => c != ':'))

/-! ## Basic facts -/

theorem assertString_eq_none (v : GoVal) :
    v.assertString = none ↔ ∀ s, v ≠ GoVal.str s := by
  cases v <;> simp [GoVal.assertString]

theorem assertString_eq_some (v : GoVal) (s : String) :
    v.assertString = some s ↔ v = GoVal.str s := by
  cases v <;> simp [GoVal.assertString]

theorem assertSlice_eq_none (v : GoVal) :
    v.assertSlice = none ↔ ∀ xs, v ≠ GoVal.slice xs := by
  cases v <;> simp [GoVal.assertSlice]

theorem assertSlice_eq_some (v : GoVal) (xs : List GoVal) :
    v.assertSlice = some xs ↔ v = GoVal.slice xs := by
  cases v <;> simp [GoVal.assertSlice]

theorem serviceSendResp_calls (h : Handler) (calls : List Call) (msg name : String)
    (ti : GoVal) :
    (serviceSendResp h calls msg name ti).calls =
      calls ++ [Call.EncryptJSONToByte
        [("Message", GoVal.str msg), ("ServiceName", GoVal.str name),
         ("RemoteTargetInfo", ti)]] := by
  simp only [serviceSendResp]
  split <;> rfl

theorem securemgrSendResp_calls (h : Handler) (calls : List Call) (msg name : String) :
    (securemgrSendResp h calls msg name).calls =
      calls ++ [Call.EncryptJSONToByte
        [("Message", GoVal.str msg), ("SecureCmpName", GoVal.str name)]] := by
  simp only [securemgrSendResp]
  split <;> rfl

theorem servicePost_of_reaches {h : Handler} {r : Request} {portStr : String}
    {appCommand : GoMap} (hr : ServiceReachesParsing h r portStr appCommand) :
    APIV1RequestServicePost h r =
      serviceCommand h [Call.GetIPs, Call.DecryptByteToJSON r.Body] portStr appCommand := by
  obtain ⟨hapi, hkey, addr, ips, ho, hips, hauth, hdec⟩ := hr
  simp [APIV1RequestServicePost, hapi, hkey, ho, hips, hauth, hdec]

theorem securemgrPost_of_reaches {h : Handler} {r : Request} {appCommand : GoMap}
    (hr : SecuremgrReachesParsing h r appCommand) :
    APIV1RequestSecuremgrPost h r =
      securemgrCommand h [Call.GetIPs, Call.DecryptByteToJSON r.Body] appCommand := by
  obtain ⟨hapi, hkey, addr, ips, ho, hips, hauth, hdec⟩ := hr
  simp [APIV1RequestSecuremgrPost, hapi, hkey, ho, hips, hauth, hdec]

theorem resolveByPort_calls (h : Handler) (portStr : String) :
    ∀ c ∈ (resolveByPort h portStr).1, ∃ port, c = Call.GetNameByPort port := by
  unfold resolveByPort
  split
  · simp
  · split <;> simp

theorem resolveByPort_serviceRequests (h : Handler) (portStr : String) :
    (resolveByPort h portStr).1.filterMap serviceRequestOf = [] := by
  unfold resolveByPort
  split
  · simp
  · split <;> simp [serviceRequestOf]

theorem resolveByPort_encrypted (h : Handler) (portStr : String) :
    (resolveByPort h portStr).1.filterMap encryptedOf = [] := by
  unfold resolveByPort
  split
  · simp
  · split <;> simp [encryptedOf]

/-- The run of `serviceCommand` when the requester is not resolved or the payload has no
string `ServiceName`: only the rejection is encrypted, with an empty name. -/
theorem serviceCommand_no_name (h : Handler) (calls : List Call) (portStr : String)
    (appCommand : GoMap)
    (hname : (resolveByPort h portStr).2 = none ∧
        (appCommand.get "ServiceRequester").assertString = none ∨
      (appCommand.get "ServiceName").assertString = none) :
    (serviceCommand h calls portStr appCommand).calls =
      calls ++ (resolveByPort h portStr).1 ++ [Call.EncryptJSONToByte
        [("Message", GoVal.str h.orchestrationINVALID_PARAMETER),
         ("ServiceName", GoVal.str ""), ("RemoteTargetInfo", GoVal.nilMap)]] := by
  unfold serviceCommand
  rcases hname with ⟨h1, h2⟩ | h3
  · simp [h1, h2, serviceSendResp_calls]
  · simp only [h3]
    split <;> simp [serviceSendResp_calls]

theorem serviceSendResp_outcome (h : Handler) (calls calls' : List Call) (msg name : String)
    (ti : GoVal) :
    (serviceSendResp h calls msg name ti).outcome =
      (serviceSendResp h calls' msg name ti).outcome := by
  simp only [serviceSendResp]
  split <;> rfl

/-- The calls made so far are kept in front of the calls of `serviceCommand`, and do not
change what it does. -/
theorem serviceCommand_calls (h : Handler) (calls : List Call) (portStr : String)
    (appCommand : GoMap) :
    (serviceCommand h calls portStr appCommand).calls =
      calls ++ (serviceCommand h [] portStr appCommand).calls := by
  simp only [serviceCommand]
  repeat' split
  all_goals simp [serviceSendResp_calls]

theorem serviceCommand_outcome (h : Handler) (calls : List Call) (portStr : String)
    (appCommand : GoMap) :
    (serviceCommand h calls portStr appCommand).outcome =
      (serviceCommand h [] portStr appCommand).outcome := by
  simp only [serviceCommand]
  repeat' split
  all_goals first | rfl | exact serviceSendResp_outcome _ _ _ _ _ _

/-- What a request passed to `RequestService` holds: every field is read off the port lookup
and the decrypted mapping. -/
theorem serviceCommand_mem_requests {h : Handler} {portStr : String} {appCommand : GoMap}
    {req : ReqeustService}
    (hmem : req ∈ (serviceCommand h [] portStr appCommand).serviceRequests) :
    (serviceCommand h [] portStr appCommand).serviceRequests = [req] ∧
    req.SelfSelection =
      decide ((match (appCommand.get "SelfSelection").assertString with
        | some s => s
        | none => "true") = "true") ∧
    (match (resolveByPort h portStr).2 with
      | some p => req.ServiceRequester = p
      | none => appCommand.get "ServiceRequester" = GoVal.str req.ServiceRequester) ∧
    appCommand.get "ServiceName" = GoVal.str req.ServiceName ∧
    ∃ executeEnvs, appCommand.get "ServiceInfo" = GoVal.slice executeEnvs ∧
      serviceInfoLoop executeEnvs = LoopExit.done req.ServiceInfo := by
  have hres := resolveByPort_serviceRequests h portStr
  revert hmem
  simp only [serviceCommand, Result.serviceRequests]
  cases hn : (appCommand.get "ServiceName").assertString with
  | none =>
    simp only []
    split <;> simp [serviceSendResp_calls, hres, serviceRequestOf]
  | some name =>
    cases hi : (appCommand.get "ServiceInfo").assertSlice with
    | none =>
      simp only []
      split <;> simp [serviceSendResp_calls, hres, serviceRequestOf]
    | some envs =>
      simp only []
      cases hl : serviceInfoLoop envs with
      | panic =>
        simp only []
        split <;> simp [serviceSendResp_calls, hres, serviceRequestOf]
      | invalid =>
        simp only []
        split <;> simp [serviceSendResp_calls, hres, serviceRequestOf]
      | done infos =>
        simp only []
        cases hby : (resolveByPort h portStr).2 with
        | none =>
          simp only []
          cases hq : (appCommand.get "ServiceRequester").assertString with
          | none => simp [serviceSendResp_calls, hres, serviceRequestOf]
          | some q =>
            simp only [serviceSendResp_calls, List.filterMap_append, hres, List.nil_append,
              List.append_nil, List.filterMap_cons, List.filterMap_nil, serviceRequestOf,
              List.mem_singleton]
            intro hreq
            subst hreq
            exact ⟨rfl, by simp, (assertString_eq_some _ _).1 hq,
              (assertString_eq_some _ _).1 hn, envs, (assertSlice_eq_some _ _).1 hi, hl⟩
        | some p =>
          simp only [serviceSendResp_calls, List.filterMap_append, hres, List.nil_append,
            List.append_nil, List.filterMap_cons, List.filterMap_nil, serviceRequestOf,
            List.mem_singleton]
          intro hreq
          subst hreq
          exact ⟨rfl, by simp, rfl, (assertString_eq_some _ _).1 hn,
            envs, (assertSlice_eq_some _ _).1 hi, hl⟩

/-- The requests dispatched by the handler are those of `serviceCommand`. -/
theorem servicePost_serviceRequests {h : Handler} {r : Request} {portStr : String}
    {appCommand : GoMap} (hr : ServiceReachesParsing h r portStr appCommand) :
    (APIV1RequestServicePost h r).serviceRequests =
      (serviceCommand h [] portStr appCommand).serviceRequests := by
  rw [servicePost_of_reaches hr]
  simp only [Result.serviceRequests]
  rw [serviceCommand_calls]
  simp [serviceRequestOf]

theorem servicePost_encrypted {h : Handler} {r : Request} {portStr : String}
    {appCommand : GoMap} (hr : ServiceReachesParsing h r portStr appCommand) :
    (APIV1RequestServicePost h r).encrypted =
      (serviceCommand h [] portStr appCommand).encrypted := by
  rw [servicePost_of_reaches hr]
  simp only [Result.encrypted]
  rw [serviceCommand_calls]
  simp [encryptedOf]

theorem servicePost_outcome {h : Handler} {r : Request} {portStr : String}
    {appCommand : GoMap} (hr : ServiceReachesParsing h r portStr appCommand) :
    (APIV1RequestServicePost h r).outcome =
      (serviceCommand h [] portStr appCommand).outcome := by
  rw [servicePost_of_reaches hr, serviceCommand_outcome]

theorem resolveByPort_eq_some {h : Handler} {portStr : String} {port : Int} {p : String}
    (hport : Atoi portStr = some port) (hp : h.GetNameByPort port = some p) :
    (resolveByPort h portStr).2 = some p := by
  simp [resolveByPort, hport, hp]

theorem resolveByPort_eq_none {h : Handler} {portStr : String}
    (hfail : Atoi portStr = none ∨
      ∃ port, Atoi portStr = some port ∧ h.GetNameByPort port = none) :
    (resolveByPort h portStr).2 = none := by
  rcases hfail with h1 | ⟨port, h1, h2⟩
  · simp [resolveByPort, h1]
  · simp [resolveByPort, h1, h2]

/-- The loop over `executeEnvs` leaves by `INVALID_PARAMETER` at the first entry without a string
`ExecutionType` or without a sequence `ExecCmd`, when the entries before it pass. -/
theorem serviceInfoLoop_append_invalid (pre : List GoVal) (infos : List RequestServiceInfo)
    (e : GoVal) (tmp : GoMap) (post : List GoVal)
    (hpre : serviceInfoLoop pre = LoopExit.done infos) (he : e.assertMap = some tmp)
    (hbad : (∀ s, tmp.get "ExecutionType" ≠ GoVal.str s) ∨
      (∀ xs, tmp.get "ExecCmd" ≠ GoVal.slice xs)) :
    serviceInfoLoop (pre ++ e :: post) = LoopExit.invalid := by
  induction pre generalizing infos with
  | nil =>
    simp only [List.nil_append, serviceInfoLoop, he]
    rcases hbad with h1 | h2
    · simp [(assertString_eq_none _).2 h1]
    · simp only [(assertSlice_eq_none _).2 h2]
      split <;> rfl
  | cons x pre ih =>
    simp only [serviceInfoLoop, List.cons_append] at hpre ⊢
    split at hpre
    · exact absurd hpre (by simp)
    · split at hpre
      · exact absurd hpre (by simp)
      · split at hpre
        · exact absurd hpre (by simp)
        · split at hpre
          · exact absurd hpre (by simp)
          · split at hpre
            · rename_i infos' hdone
              simp [ih infos' hdone]
            · exact absurd hpre (by simp)
            · exact absurd hpre (by simp)

/-- All-or-nothing over `ServiceInfo`: with a resolved requester and a string `ServiceName` `n`,
a `ServiceInfo` whose leading entries pass the loop and whose next entry is a map without a
string `ExecutionType` or without a sequence `ExecCmd` is rejected with `INVALID_PARAMETER` and
the name `n`, and nothing is dispatched. -/
theorem service_all_or_nothing (h : Handler) (r : Request) (portStr : String)
    (appCommand : GoMap) (n : String) (pre post : List GoVal)
    (infos : List RequestServiceInfo) (e : GoVal) (tmp : GoMap)
    (hreach : ServiceReachesParsing h r portStr appCommand)
    (hreq : (∃ p, (resolveByPort h portStr).2 = some p) ∨
      ∃ q, appCommand.get "ServiceRequester" = GoVal.str q)
    (hname : appCommand.get "ServiceName" = GoVal.str n)
    (hinfo : appCommand.get "ServiceInfo" = GoVal.slice (pre ++ e :: post))
    (hpre : serviceInfoLoop pre = LoopExit.done infos) (he : e.assertMap = some tmp)
    (hbad : (∀ s, tmp.get "ExecutionType" ≠ GoVal.str s) ∨
      (∀ xs, tmp.get "ExecCmd" ≠ GoVal.slice xs)) :
    (∃ m, (APIV1RequestServicePost h r).encrypted = [m] ∧
      m.get "Message" = GoVal.str h.orchestrationINVALID_PARAMETER ∧
      m.get "ServiceName" = GoVal.str n) ∧
    (APIV1RequestServicePost h r).serviceRequests = [] := by
  have hloop := serviceInfoLoop_append_invalid pre infos e tmp post hpre he hbad
  have hcalls : (serviceCommand h [] portStr appCommand).calls =
      (resolveByPort h portStr).1 ++ [Call.EncryptJSONToByte
        [("Message", GoVal.str h.orchestrationINVALID_PARAMETER),
         ("ServiceName", GoVal.str n), ("RemoteTargetInfo", GoVal.nilMap)]] := by
    simp only [serviceCommand, hname, hinfo, GoVal.assertString, GoVal.assertSlice, hloop]
    rcases hreq with ⟨p, hp⟩ | ⟨q, hq⟩
    · simp [hp, serviceSendResp_calls]
    · simp only [hq, GoVal.assertString]
      cases (resolveByPort h portStr).2 <;> simp [serviceSendResp_calls]
  rw [servicePost_encrypted hreach, servicePost_serviceRequests hreach]
  refine ⟨⟨[("Message", GoVal.str h.orchestrationINVALID_PARAMETER),
    ("ServiceName", GoVal.str n), ("RemoteTargetInfo", GoVal.nilMap)], ?_, ?_, ?_⟩, ?_⟩
  · simp [Result.encrypted, hcalls, resolveByPort_encrypted, encryptedOf]
  · simp [GoMap.get]
  · simp [GoMap.get]
  · simp [Result.serviceRequests, hcalls, resolveByPort_serviceRequests, serviceRequestOf]

theorem get_of_not_mem_keys (m : GoMap) (key : String) (hkey : key ∉ m.keys) :
    m.get key = GoVal.nil := by
  induction m with
  | nil => rfl
  | cons kv rest ih =>
    obtain ⟨k, v⟩ := kv
    simp only [GoMap.keys, List.map_cons, List.mem_cons, not_or] at hkey
    have hne : ¬ k = key := fun hk => hkey.1 hk.symm
    simp only [GoMap.get, hne, if_false]
    exact ih hkey.2

theorem securemgrPost_calls_of_reaches {h : Handler} {r : Request} {appCommand : GoMap}
    (hr : SecuremgrReachesParsing h r appCommand) :
    (APIV1RequestSecuremgrPost h r).calls =
      (securemgrCommand h [Call.GetIPs, Call.DecryptByteToJSON r.Body] appCommand).calls := by
  rw [securemgrPost_of_reaches hr]

/-- The loop over `containerDescs` leaves by `INVALID_PARAMETER` when every element is a map and
one of them has no string `ContainerHash`. -/
theorem descLoop_invalid (xs : List GoVal)
    (hmaps : ∀ e ∈ xs, ∃ tmp, e.assertMap = some tmp)
    (hbad : ∃ e ∈ xs, ∃ tmp, e.assertMap = some tmp ∧
      ∀ s, tmp.get "ContainerHash" ≠ GoVal.str s) :
    descLoop xs = LoopExit.invalid := by
  induction xs with
  | nil =>
    obtain ⟨e, he, _⟩ := hbad
    simp at he
  | cons x xs ih =>
    obtain ⟨tmp, hx⟩ := hmaps x (List.mem_cons_self _ _)
    simp only [descLoop, hx]
    cases hh : (tmp.get "ContainerHash").assertString with
    | none => rfl
    | some hash =>
      have hrest : descLoop xs = LoopExit.invalid := by
        apply ih (fun e he => hmaps e (List.mem_cons_of_mem _ he))
        obtain ⟨e, he, tmp', he', hno⟩ := hbad
        rcases List.mem_cons.1 he with hex | hexs
        · subst hex
          rw [hx] at he'
          cases he'
          exact absurd ((assertString_eq_some _ _).1 hh) (hno hash)
        · exact ⟨e, hexs, tmp', he', hno⟩
      simp [hrest]

theorem splitChars_length (sep : Char) (cs : List Char) :
    (splitChars sep cs).length = cs.count sep + 1 := by
  induction cs with
  | nil => rfl
  | cons c cs ih =>
    by_cases hc : c = sep
    · subst hc
      simp [splitChars, ih]
    · have hne : (c == sep) = false := by simpa using hc
      simp only [splitChars, hc, if_false, List.count_cons, hne]
      cases hs : splitChars sep cs with
      | nil => simp [hs] at ih
      | cons seg segs => simpa [hs] using ih

theorem stringsSplit_length (s : String) (sep : Char) :
    (stringsSplit s sep).length = s.data.count sep + 1 := by
  simp [stringsSplit, splitChars_length]

/-- The secure-manager handler reads the address off every `RemoteAddr`. -/
theorem securemgrOrigin_isSome (RemoteAddr : String) :
    ∃ addr, securemgrOrigin RemoteAddr = some addr := by
  unfold securemgrOrigin
  by_cases hc : stringsContains RemoteAddr "::1" = true
  · exact ⟨"localhost", by simp [hc]⟩
  · have hlen : 0 < (stringsSplit RemoteAddr ':').length := by
      rw [stringsSplit_length]; omega
    refine ⟨(stringsSplit RemoteAddr ':')[0], ?_⟩
    simp [hc, List.getElem?_eq_getElem hlen]

/-- The service handler reads address and port off every `RemoteAddr` that holds a colon. -/
theorem serviceOrigin_isSome (RemoteAddr : String) (hcolon : ':' ∈ RemoteAddr.data) :
    ∃ addr portStr, serviceOrigin RemoteAddr = some (addr, portStr) := by
  have hlen : 1 < (stringsSplit RemoteAddr ':').length := by
    rw [stringsSplit_length]
    have := List.count_pos_iff.2 hcolon
    omega
  unfold serviceOrigin
  by_cases hc : stringsContains RemoteAddr "::1" = true
  · have hne : stringsSplit RemoteAddr ':' ≠ [] := by
      intro h0; rw [h0] at hlen; simp at hlen
    refine ⟨"localhost", (stringsSplit RemoteAddr ':').getLast hne, ?_⟩
    simp [hc, List.getLast?_eq_getLast _ hne]
  · refine ⟨(stringsSplit RemoteAddr ':')[0], (stringsSplit RemoteAddr ':')[1], ?_⟩
    simp [hc, List.getElem?_eq_getElem hlen,
      List.getElem?_eq_getElem (Nat.lt_trans Nat.zero_lt_one hlen)]

/-! ## Reading the origin -/

theorem splitChars_getElem_zero (sep : Char) (cs : List Char) :
    (splitChars sep cs)[0]? = some (cs.takeWhile (fun c => c != sep)) := by
  induction cs with
  | nil => rfl
  | cons c cs ih =>
    by_cases hc : c = sep
    · simp [splitChars, hc]
    · have hne : (c != sep) = true := by simpa using hc
      simp only [splitChars, hc, if_false, List.takeWhile_cons, hne, if_true]
      cases hs : splitChars sep cs with
      | nil => simp [hs] at ih
      | cons seg segs =>
        rw [hs] at ih
        simp only [List.getElem?_cons_zero, Option.some.injEq] at ih
        simp [ih]

theorem stringsSplit_getElem_zero (s : String) :
    (stringsSplit s ':')[0]? = some (beforeFirstColon s) := by
  simp [stringsSplit, beforeFirstColon, List.getElem?_map, splitChars_getElem_zero]

theorem mem_of_containsChars (c : Char) (rest cs : List Char)
    (hc : containsChars (c :: rest) cs = true) : c ∈ cs := by
  induction cs with
  | nil => simp [containsChars] at hc
  | cons x xs ih =>
    simp only [containsChars, List.isPrefixOf, Bool.or_eq_true, Bool.and_eq_true,
      beq_iff_eq] at hc
    rcases hc with ⟨hx, _⟩ | hxs
    · simp [hx]
    · exact List.mem_cons_of_mem _ (ih hxs)

theorem colon_mem_of_contains (RemoteAddr : String)
    (hc : stringsContains RemoteAddr "::1" = true) : ':' ∈ RemoteAddr.data :=
  mem_of_containsChars ':' [':', '1'] RemoteAddr.data hc

/-- The address read by the secure-manager handler. -/
theorem securemgrOrigin_eq (RemoteAddr : String) :
    securemgrOrigin RemoteAddr =
      some (if stringsContains RemoteAddr "::1" = true then "localhost"
        else beforeFirstColon RemoteAddr) := by
  unfold securemgrOrigin
  by_cases hc : stringsContains RemoteAddr "::1" = true
  · simp [hc]
  · simp [hc, stringsSplit_getElem_zero]

/-- The address read by the service handler from a `RemoteAddr` that holds a colon. -/
theorem serviceOrigin_eq (RemoteAddr : String) (hcolon : ':' ∈ RemoteAddr.data) :
    ∃ portStr, serviceOrigin RemoteAddr =
      some (if stringsContains RemoteAddr "::1" = true then "localhost"
        else beforeFirstColon RemoteAddr, portStr) := by
  have hlen : 1 < (stringsSplit RemoteAddr ':').length := by
    rw [stringsSplit_length]
    have := List.count_pos_iff.2 hcolon
    omega
  unfold serviceOrigin
  by_cases hc : stringsContains RemoteAddr "::1" = true
  · have hne : stringsSplit RemoteAddr ':' ≠ [] := by
      intro h0; rw [h0] at hlen; simp at hlen
    exact ⟨(stringsSplit RemoteAddr ':').getLast hne, by
      simp [hc, List.getLast?_eq_getLast _ hne]⟩
  · exact ⟨(stringsSplit RemoteAddr ':')[1], by
      simp [hc, stringsSplit_getElem_zero, List.getElem?_eq_getElem hlen]⟩

/-- The service handler reads nothing from a `RemoteAddr` that holds no colon: `reqAddr[1]` is
out of range. -/
theorem serviceOrigin_eq_none (RemoteAddr : String) (hcolon : ':' ∉ RemoteAddr.data) :
    serviceOrigin RemoteAddr = none := by
  have hlen : (stringsSplit RemoteAddr ':').length = 1 := by
    rw [stringsSplit_length, List.count_eq_zero_of_not_mem hcolon]
  have hc : ¬ stringsContains RemoteAddr "::1" = true :=
    fun hc => hcolon (colon_mem_of_contains RemoteAddr hc)
  unfold serviceOrigin
  have h1 : (stringsSplit RemoteAddr ':')[1]? = none := by
    rw [List.getElem?_eq_none_iff]; omega
  simp [hc, h1]

theorem originRefused_eq_true_iff (ips : List String) (addr : String) :
    originRefused ips addr = true ↔
      addr ≠ "localhost" ∧ addr ≠ "127.0.0.1" ∧ addr ∉ ips := by
  simp [originRefused, HasElem, and_assoc]

theorem beforeFirstColon_ipv4_loopback (port : String) :
    beforeFirstColon ("127.0.0.1:" ++ port) = "127.0.0.1" := by
  have hd : ("127.0.0.1:" ++ port).data =
      ['1', '2', '7', '.', '0', '.', '0', '.', '1', ':'] ++ port.data := by
    rw [String.data_append]
  simp [beforeFirstColon, hd, List.takeWhile]

theorem beforeFirstColon_localhost (port : String) :
    beforeFirstColon ("localhost:" ++ port) = "localhost" := by
  have hd : ("localhost:" ++ port).data =
      ['l', 'o', 'c', 'a', 'l', 'h', 'o', 's', 't', ':'] ++ port.data := by
    rw [String.data_append]
  simp [beforeFirstColon, hd, List.takeWhile]

theorem stringsContains_ipv6_loopback (port : String) :
    stringsContains ("[::1]:" ++ port) "::1" = true := by
  have hd : ("[::1]:" ++ port).data = ['[', ':', ':', '1', ']', ':'] ++ port.data := by
    rw [String.data_append]
  have hs : ("::1" : String).data = [':', ':', '1'] := rfl
  simp [stringsContains, hd, hs, containsChars, List.isPrefixOf]

/-- The address read off a loopback `RemoteAddr` is never refused, and the `RemoteAddr` holds a
colon. -/
theorem loopback_origin_allowed (RemoteAddr port : String) (ips : List String)
    (hlocal : RemoteAddr = "127.0.0.1:" ++ port ∨ RemoteAddr = "localhost:" ++ port ∨
      RemoteAddr = "[::1]:" ++ port) :
    ':' ∈ RemoteAddr.data ∧
    originRefused ips (if stringsContains RemoteAddr "::1" = true then "localhost"
      else beforeFirstColon RemoteAddr) = false := by
  rcases hlocal with hl | hl | hl
  · subst hl
    refine ⟨by rw [String.data_append]; simp, ?_⟩
    by_cases hc : stringsContains ("127.0.0.1:" ++ port) "::1" = true
    · simp [hc, originRefused]
    · simp [hc, originRefused, beforeFirstColon_ipv4_loopback]
  · subst hl
    refine ⟨by rw [String.data_append]; simp, ?_⟩
    by_cases hc : stringsContains ("localhost:" ++ port) "::1" = true
    · simp [hc, originRefused]
    · simp [hc, originRefused, beforeFirstColon_localhost]
  · subst hl
    exact ⟨colon_mem_of_contains _ (stringsContains_ipv6_loopback port), by
      simp [stringsContains_ipv6_loopback, originRefused]⟩

/-- With API and key set, the service handler panics before any call on a `RemoteAddr` that
holds no colon. -/
theorem servicePost_of_colonless (h : Handler) (r : Request) (hapi : h.isSetAPI = true)
    (hkey : h.IsSetKey = true) (hcolon : ':' ∉ r.RemoteAddr.data) :
    APIV1RequestServicePost h r = ⟨[], Outcome.panic⟩ := by
  simp [APIV1RequestServicePost, hapi, hkey, serviceOrigin_eq_none r.RemoteAddr hcolon]

/-- A run of the service handler that calls `GetIPs` is a run on a `RemoteAddr` that holds a
colon. -/
theorem colon_of_servicePost_calls_GetIPs (h : Handler) (r : Request)
    (hcalled : Call.GetIPs ∈ (APIV1RequestServicePost h r).calls) :
    ':' ∈ r.RemoteAddr.data := by
  by_contra hno
  cases hapi : h.isSetAPI with
  | false => simp [APIV1RequestServicePost, hapi] at hcalled
  | true =>
    cases hkey : h.IsSetKey with
    | false => simp [APIV1RequestServicePost, hapi, hkey] at hcalled
    | true =>
      rw [servicePost_of_colonless h r hapi hkey hno] at hcalled
      simp at hcalled

/-! ## The sample requests reach parsing -/

theorem localRequest_reaches_service (payload : GoMap) (byPort : Option String) :
    ServiceReachesParsing (sampleHandler (some payload) (some []) byPort) localRequest
      "4000" payload :=
  ⟨rfl, rfl, "127.0.0.1", [], by decide, rfl, by decide, rfl⟩

theorem localRequest_reaches_securemgr (payload : GoMap) (byPort : Option String) :
    SecuremgrReachesParsing (sampleHandler (some payload) (some []) byPort) localRequest
      payload :=
  ⟨rfl, rfl, "127.0.0.1", [], by decide, rfl, by decide, rfl⟩

/-! ## C1 -/

/-- C1: in `APIV1RequestServicePost`, for every request that reaches parsing and every
decrypted mapping whose `ServiceName` is absent or not a string, exactly one response
mapping is handed to encryption, it has `Message = INVALID_PARAMETER` and
`ServiceName = ""`, and `RequestService` is not invoked; nothing is assumed about the
other fields or about the port lookup. -/
theorem C1_missing_service_name_rejected (h : Handler) (r : Request) (portStr : String)
    (appCommand : GoMap) (hreach : ServiceReachesParsing h r portStr appCommand)
    (hname : ∀ s, appCommand.get "ServiceName" ≠ GoVal.str s) :
    (∃ m, (APIV1RequestServicePost h r).encrypted = [m] ∧
      m.get "Message" = GoVal.str h.orchestrationINVALID_PARAMETER ∧
      m.get "ServiceName" = GoVal.str "") ∧
    (APIV1RequestServicePost h r).serviceRequests = [] := by
  have hcalls := serviceCommand_no_name h [Call.GetIPs, Call.DecryptByteToJSON r.Body]
    portStr appCommand (Or.inr ((assertString_eq_none _).2 hname))
  rw [servicePost_of_reaches hreach]
  refine ⟨⟨[("Message", GoVal.str h.orchestrationINVALID_PARAMETER),
    ("ServiceName", GoVal.str ""), ("RemoteTargetInfo", GoVal.nilMap)], ?_, ?_, ?_⟩, ?_⟩
  · simp [Result.encrypted, hcalls, resolveByPort_encrypted, encryptedOf]
  · simp [GoMap.get]
  · simp [GoMap.get]
  · simp [Result.serviceRequests, hcalls, resolveByPort_serviceRequests, serviceRequestOf]

/-- The hypotheses of C1 hold for a loopback request whose payload has no `ServiceName`, and the handler rejects it. -/
theorem C1_witness :
    ServiceReachesParsing (sampleHandler (some payloadNoName) (some []) (some "resolved"))
      localRequest "4000" payloadNoName ∧
    (∀ s, payloadNoName.get "ServiceName" ≠ GoVal.str s) ∧
    ((∃ m, (APIV1RequestServicePost
        (sampleHandler (some payloadNoName) (some []) (some "resolved"))
        localRequest).encrypted = [m] ∧
      m.get "Message" = GoVal.str "INVALID_PARAMETER" ∧
      m.get "ServiceName" = GoVal.str "") ∧
    (APIV1RequestServicePost (sampleHandler (some payloadNoName) (some []) (some "resolved"))
      localRequest).serviceRequests = []) :=
  ⟨localRequest_reaches_service _ _, by simp [payloadNoName, GoMap.get],
    C1_missing_service_name_rejected _ _ _ _ (localRequest_reaches_service _ _)
      (by simp [payloadNoName, GoMap.get])⟩

/-! ## C2 -/

/-- The spec's own test of all-or-nothing: element 0 valid, element 1 without `ExecCmd`; the
request is rejected under the resolved name `svc` and nothing is dispatched. -/
theorem service_all_or_nothing_example :
    (∃ m, (APIV1RequestServicePost
        (sampleHandler (some payloadSecondMalformed) (some []) (some "resolved"))
        localRequest).encrypted = [m] ∧
      m.get "Message" = GoVal.str "INVALID_PARAMETER" ∧
      m.get "ServiceName" = GoVal.str "svc") ∧
    (APIV1RequestServicePost
      (sampleHandler (some payloadSecondMalformed) (some []) (some "resolved"))
      localRequest).serviceRequests = [] :=
  service_all_or_nothing _ _ "4000" payloadSecondMalformed "svc" [validEntry] []
    [{ ExecutionType := "native", ExeCmd := ["ls", "-l"] }]
    (GoVal.map [("ExecutionType", GoVal.str "native")]) [("ExecutionType", GoVal.str "native")]
    (localRequest_reaches_service _ _) (Or.inl ⟨"resolved", rfl⟩) rfl rfl rfl rfl
    (Or.inr (by simp [GoMap.get]))

/-- C2, on the input where the claim fails: the requester is resolved, `ServiceName` is the
string `svc`, `ServiceInfo` is a sequence of two maps whose element 1 has no `ExecCmd`, and
element 0 carries `ExecCmd = ["ls", 5]`. The handler panics in the inner loop at element 0:
no response mapping is built, nothing is encrypted and nothing is dispatched. -/
theorem C2_number_then_malformed_panics :
    (APIV1RequestServicePost
      (sampleHandler (some payloadNumberThenMalformed) (some []) (some "resolved"))
      localRequest).outcome = Outcome.panic ∧
    (APIV1RequestServicePost
      (sampleHandler (some payloadNumberThenMalformed) (some []) (some "resolved"))
      localRequest).encrypted = [] ∧
    (APIV1RequestServicePost
      (sampleHandler (some payloadNumberThenMalformed) (some []) (some "resolved"))
      localRequest).serviceRequests = [] :=
  ⟨by decide, rfl, by decide⟩

/-! ## C3 -/

/-- C3, on an input where the claim fails: the caller `[2001:db8::1234]:5000` is not a
loopback address and is not in the address set `["192.168.0.10"]` answered by `GetIPs`, yet
both handlers take it for `localhost` because the text of `RemoteAddr` contains `::1`: the
body is decrypted, the command is dispatched and the answer is `200`, not `406`. -/
theorem C3_remote_address_containing_loopback_text_is_served :
    (APIV1RequestServicePost
      (sampleHandler (some (servicePayload [("ServiceRequester", GoVal.str "app")]))
        (some ["192.168.0.10"]) none) remoteV6Request).outcome =
      Outcome.ResponseJSON [1] StatusOK ∧
    (APIV1RequestServicePost
      (sampleHandler (some (servicePayload [("ServiceRequester", GoVal.str "app")]))
        (some ["192.168.0.10"]) none) remoteV6Request).decrypted = [[7]] ∧
    (APIV1RequestServicePost
      (sampleHandler (some (servicePayload [("ServiceRequester", GoVal.str "app")]))
        (some ["192.168.0.10"]) none) remoteV6Request).serviceRequests =
      [{ SelfSelection := true, ServiceName := "svc",
         ServiceInfo := [{ ExecutionType := "native", ExeCmd := ["ls", "-l"] }],
         ServiceRequester := "app" }] ∧
    (APIV1RequestSecuremgrPost
      (sampleHandler (some (securemgrPayload "getStatus" [])) (some ["192.168.0.10"]) none)
      remoteV6Request).outcome = Outcome.ResponseJSON [1] StatusOK ∧
    (APIV1RequestSecuremgrPost
      (sampleHandler (some (securemgrPayload "getStatus" [])) (some ["192.168.0.10"]) none)
      remoteV6Request).decrypted = [[7]] ∧
    (APIV1RequestSecuremgrPost
      (sampleHandler (some (securemgrPayload "getStatus" [])) (some ["192.168.0.10"]) none)
      remoteV6Request).securemgrRequests =
      [{ SecureInsName := "verifier", CmdType := "getStatus", Desc := [] }] :=
  by decide

/-! ## C4 -/

/-- C4: when the source port parses as an integer and `GetNameByPort` answers `p`, every
request passed to `RequestService` has `ServiceRequester = p`, whatever the payload holds
under `ServiceRequester`; and two payloads that differ only in that field dispatch the same
requests. -/
theorem C4_port_resolution_wins (h : Handler) (r : Request) (portStr : String)
    (appCommand : GoMap) (port : Int) (p : String)
    (hreach : ServiceReachesParsing h r portStr appCommand)
    (hport : Atoi portStr = some port) (hp : h.GetNameByPort port = some p) :
    (∀ req ∈ (APIV1RequestServicePost h r).serviceRequests, req.ServiceRequester = p) ∧
    ∀ (r' : Request) (appCommand' : GoMap), ServiceReachesParsing h r' portStr appCommand' →
      (∀ key, key ≠ "ServiceRequester" → appCommand'.get key = appCommand.get key) →
      (APIV1RequestServicePost h r').serviceRequests =
        (APIV1RequestServicePost h r).serviceRequests := by
  have hres := resolveByPort_eq_some hport hp
  constructor
  · intro req hmem
    rw [servicePost_serviceRequests hreach] at hmem
    have := (serviceCommand_mem_requests hmem).2.2.1
    simpa [hres] using this
  · intro r' appCommand' hreach' hsame
    rw [servicePost_serviceRequests hreach, servicePost_serviceRequests hreach']
    have h1 := hsame "SelfSelection" (by decide)
    have h2 := hsame "ServiceName" (by decide)
    have h3 := hsame "ServiceInfo" (by decide)
    simp only [serviceCommand, hres, h1, h2, h3]

/-- The hypotheses of C4 hold for a loopback request whose port resolves to `resolved` while the payload declares `declared`: the request is dispatched with `resolved`. -/
theorem C4_witness :
    ServiceReachesParsing
      (sampleHandler (some (servicePayload [("ServiceRequester", GoVal.str "declared")]))
        (some []) (some "resolved"))
      localRequest "4000" (servicePayload [("ServiceRequester", GoVal.str "declared")]) ∧
    Atoi "4000" = some 4000 ∧
    (APIV1RequestServicePost
      (sampleHandler (some (servicePayload [("ServiceRequester", GoVal.str "declared")]))
        (some []) (some "resolved"))
      localRequest).serviceRequests =
      [{ SelfSelection := true, ServiceName := "svc",
         ServiceInfo := [{ ExecutionType := "native", ExeCmd := ["ls", "-l"] }],
         ServiceRequester := "resolved" }] ∧
    (∀ req ∈ (APIV1RequestServicePost
      (sampleHandler (some (servicePayload [("ServiceRequester", GoVal.str "declared")]))
        (some []) (some "resolved"))
      localRequest).serviceRequests, req.ServiceRequester = "resolved") :=
  ⟨localRequest_reaches_service _ _, by decide, by decide,
    (C4_port_resolution_wins _ _ "4000" _ 4000 "resolved"
      (localRequest_reaches_service _ _) (by decide) rfl).1⟩

/-! ## C5 -/

/-- C5: when the port lookup fails (the port text is not an integer, or `GetNameByPort`
returns an error), every request passed to `RequestService` carries the payload's
`ServiceRequester` string; and when that field is absent or not a string, the one response
mapping handed to encryption has `Message = INVALID_PARAMETER` and `ServiceName = ""`,
whatever `ServiceName` the payload carries, and `RequestService` is not invoked. -/
theorem C5_requester_fallback (h : Handler) (r : Request) (portStr : String)
    (appCommand : GoMap) (hreach : ServiceReachesParsing h r portStr appCommand)
    (hfail : Atoi portStr = none ∨
      ∃ port, Atoi portStr = some port ∧ h.GetNameByPort port = none) :
    (∀ s, appCommand.get "ServiceRequester" = GoVal.str s →
      ∀ req ∈ (APIV1RequestServicePost h r).serviceRequests, req.ServiceRequester = s) ∧
    ((∀ s, appCommand.get "ServiceRequester" ≠ GoVal.str s) →
      (∃ m, (APIV1RequestServicePost h r).encrypted = [m] ∧
        m.get "Message" = GoVal.str h.orchestrationINVALID_PARAMETER ∧
        m.get "ServiceName" = GoVal.str "") ∧
      (APIV1RequestServicePost h r).serviceRequests = []) := by
  have hres := resolveByPort_eq_none hfail
  constructor
  · intro s hs req hmem
    rw [servicePost_serviceRequests hreach] at hmem
    have := (serviceCommand_mem_requests hmem).2.2.1
    simp only [hres, hs, GoVal.str.injEq] at this
    exact this.symm
  · intro hno
    have hcalls := serviceCommand_no_name h [Call.GetIPs, Call.DecryptByteToJSON r.Body]
      portStr appCommand (Or.inl ⟨hres, (assertString_eq_none _).2 hno⟩)
    rw [servicePost_of_reaches hreach]
    refine ⟨⟨[("Message", GoVal.str h.orchestrationINVALID_PARAMETER),
      ("ServiceName", GoVal.str ""), ("RemoteTargetInfo", GoVal.nilMap)], ?_, ?_, ?_⟩, ?_⟩
    · simp [Result.encrypted, hcalls, resolveByPort_encrypted, encryptedOf]
    · simp [GoMap.get]
    · simp [GoMap.get]
    · simp [Result.serviceRequests, hcalls, resolveByPort_serviceRequests, serviceRequestOf]

/-- The hypotheses of C5 hold for loopback requests whose port does not resolve: the payload that declares `declared` is dispatched with it, the payload whose `ServiceRequester` is a number is rejected with an empty name. -/
theorem C5_witness :
    ServiceReachesParsing
      (sampleHandler (some (servicePayload [("ServiceRequester", GoVal.str "declared")]))
        (some []) none)
      localRequest "4000" (servicePayload [("ServiceRequester", GoVal.str "declared")]) ∧
    (APIV1RequestServicePost
      (sampleHandler (some (servicePayload [("ServiceRequester", GoVal.str "declared")]))
        (some []) none)
      localRequest).serviceRequests =
      [{ SelfSelection := true, ServiceName := "svc",
         ServiceInfo := [{ ExecutionType := "native", ExeCmd := ["ls", "-l"] }],
         ServiceRequester := "declared" }] ∧
    (∀ req ∈ (APIV1RequestServicePost
      (sampleHandler (some (servicePayload [("ServiceRequester", GoVal.str "declared")]))
        (some []) none)
      localRequest).serviceRequests, req.ServiceRequester = "declared") ∧
    ((∃ m, (APIV1RequestServicePost
        (sampleHandler (some (servicePayload [("ServiceRequester", GoVal.num 3)]))
          (some []) none)
        localRequest).encrypted = [m] ∧
      m.get "Message" = GoVal.str "INVALID_PARAMETER" ∧
      m.get "ServiceName" = GoVal.str "") ∧
    (APIV1RequestServicePost
      (sampleHandler (some (servicePayload [("ServiceRequester", GoVal.num 3)]))
        (some []) none)
      localRequest).serviceRequests = []) :=
  ⟨localRequest_reaches_service _ _, by decide,
    (C5_requester_fallback _ _ "4000" _ (localRequest_reaches_service _ _)
      (Or.inr ⟨4000, by decide, rfl⟩)).1 "declared" rfl,
    (C5_requester_fallback _ _ "4000" _ (localRequest_reaches_service _ _)
      (Or.inr ⟨4000, by decide, rfl⟩)).2 (by simp [servicePayload, GoMap.get])⟩

/-! ## C6 -/

/-- C6: for every request that `APIV1RequestServicePost` passes to `RequestService`,
`SelfSelection` is true when the payload has no `SelfSelection` field, true when the field is
not a string, true when it is the string `"true"`, and false for every other string. -/
theorem C6_self_selection_default (h : Handler) (r : Request) (portStr : String)
    (appCommand : GoMap) (hreach : ServiceReachesParsing h r portStr appCommand) :
    ∀ req ∈ (APIV1RequestServicePost h r).serviceRequests,
      ("SelfSelection" ∉ appCommand.keys → req.SelfSelection = true) ∧
      ((∀ s, appCommand.get "SelfSelection" ≠ GoVal.str s) → req.SelfSelection = true) ∧
      (appCommand.get "SelfSelection" = GoVal.str "true" → req.SelfSelection = true) ∧
      (∀ s, s ≠ "true" → appCommand.get "SelfSelection" = GoVal.str s →
        req.SelfSelection = false) := by
  intro req hmem
  rw [servicePost_serviceRequests hreach] at hmem
  have hsel := (serviceCommand_mem_requests hmem).2.1
  refine ⟨?_, ?_, ?_, ?_⟩
  · intro habs
    rw [hsel, get_of_not_mem_keys _ _ habs]
    simp [GoVal.assertString]
  · intro hns
    rw [hsel, (assertString_eq_none _).2 hns]
    simp
  · intro ht
    rw [hsel, ht]
    simp [GoVal.assertString]
  · intro s hs hget
    rw [hsel, hget]
    simp [GoVal.assertString, hs]

/-- The hypothesis of C6 holds for a loopback request whose `SelfSelection` is the boolean false: it is dispatched with `SelfSelection` true. -/
theorem C6_witness :
    ServiceReachesParsing
      (sampleHandler (some (servicePayload [("SelfSelection", GoVal.bool false)]))
        (some []) (some "resolved"))
      localRequest "4000" (servicePayload [("SelfSelection", GoVal.bool false)]) ∧
    (APIV1RequestServicePost
      (sampleHandler (some (servicePayload [("SelfSelection", GoVal.bool false)]))
        (some []) (some "resolved"))
      localRequest).serviceRequests =
      [{ SelfSelection := true, ServiceName := "svc",
         ServiceInfo := [{ ExecutionType := "native", ExeCmd := ["ls", "-l"] }],
         ServiceRequester := "resolved" }] ∧
    (∀ req ∈ (APIV1RequestServicePost
      (sampleHandler (some (servicePayload [("SelfSelection", GoVal.bool false)]))
        (some []) (some "resolved"))
      localRequest).serviceRequests, req.SelfSelection = true) :=
  ⟨localRequest_reaches_service _ _, by decide,
    fun req hmem =>
      (C6_self_selection_default _ _ "4000" _ (localRequest_reaches_service _ _) req hmem).2.1
        (by simp [servicePayload, GoMap.get])⟩

/-- The four cases of `SelfSelection` on dispatched requests: absent, the number 0, the
string `"true"`, and the strings `"false"`, `"True"` and `""`. -/
theorem self_selection_examples :
    ((APIV1RequestServicePost (sampleHandler (some (servicePayload [])) (some [])
      (some "resolved")) localRequest).serviceRequests.map (fun q => q.SelfSelection) = [true]) ∧
    ((APIV1RequestServicePost (sampleHandler
      (some (servicePayload [("SelfSelection", GoVal.num 0)])) (some [])
      (some "resolved")) localRequest).serviceRequests.map (fun q => q.SelfSelection) = [true]) ∧
    ((APIV1RequestServicePost (sampleHandler
      (some (servicePayload [("SelfSelection", GoVal.str "true")])) (some [])
      (some "resolved")) localRequest).serviceRequests.map (fun q => q.SelfSelection) = [true]) ∧
    ((APIV1RequestServicePost (sampleHandler
      (some (servicePayload [("SelfSelection", GoVal.str "false")])) (some [])
      (some "resolved")) localRequest).serviceRequests.map (fun q => q.SelfSelection) = [false]) ∧
    ((APIV1RequestServicePost (sampleHandler
      (some (servicePayload [("SelfSelection", GoVal.str "True")])) (some [])
      (some "resolved")) localRequest).serviceRequests.map (fun q => q.SelfSelection) = [false]) ∧
    ((APIV1RequestServicePost (sampleHandler
      (some (servicePayload [("SelfSelection", GoVal.str "")])) (some [])
      (some "resolved")) localRequest).serviceRequests.map (fun q => q.SelfSelection) = [false]) :=
  by decide

/-! ## C7 -/

/-- C7: in `APIV1RequestSecuremgrPost`, for every request that reaches parsing with `CmdType`
the string `addHashCWL` or `delHashCWL`, when `Desc` is absent or not a sequence, or is a
sequence of maps one of which has no string `ContainerHash`, the one response mapping handed
to encryption has `Message = INVALID_PARAMETER` and `SecureCmpName = "verifier"`, and
`RequestSecureMgr` is not invoked. -/
theorem C7_mutating_command_requires_desc (h : Handler) (r : Request) (appCommand : GoMap)
    (hreach : SecuremgrReachesParsing h r appCommand)
    (hcmd : appCommand.get "CmdType" = GoVal.str "addHashCWL" ∨
      appCommand.get "CmdType" = GoVal.str "delHashCWL")
    (hdesc : (∀ xs, appCommand.get "Desc" ≠ GoVal.slice xs) ∨
      ∃ xs, appCommand.get "Desc" = GoVal.slice xs ∧
        (∀ e ∈ xs, ∃ tmp, e.assertMap = some tmp) ∧
        ∃ e ∈ xs, ∃ tmp, e.assertMap = some tmp ∧
          ∀ s, tmp.get "ContainerHash" ≠ GoVal.str s) :
    (∃ m, (APIV1RequestSecuremgrPost h r).encrypted = [m] ∧
      m.get "Message" = GoVal.str h.securemgrINVALID_PARAMETER ∧
      m.get "SecureCmpName" = GoVal.str "verifier") ∧
    (APIV1RequestSecuremgrPost h r).securemgrRequests = [] := by
  have hcalls : (APIV1RequestSecuremgrPost h r).calls =
      [Call.GetIPs, Call.DecryptByteToJSON r.Body, Call.EncryptJSONToByte
        [("Message", GoVal.str h.securemgrINVALID_PARAMETER),
         ("SecureCmpName", GoVal.str "verifier")]] := by
    rw [securemgrPost_calls_of_reaches hreach]
    have hif : ∀ c : String, appCommand.get "CmdType" = GoVal.str c →
        (c = "addHashCWL" ∨ c = "delHashCWL") →
        (securemgrCommand h [Call.GetIPs, Call.DecryptByteToJSON r.Body] appCommand).calls =
          [Call.GetIPs, Call.DecryptByteToJSON r.Body, Call.EncryptJSONToByte
            [("Message", GoVal.str h.securemgrINVALID_PARAMETER),
             ("SecureCmpName", GoVal.str "verifier")]] := by
      intro c hc hmut
      simp only [securemgrCommand, hc, GoVal.assertString, hmut, if_true]
      rcases hdesc with hno | ⟨xs, hxs, hmaps, hbad⟩
      · simp [(assertSlice_eq_none _).2 hno, securemgrSendResp_calls]
      · simp [hxs, GoVal.assertSlice, descLoop_invalid xs hmaps hbad, securemgrSendResp_calls]
    rcases hcmd with hc | hc
    · exact hif _ hc (Or.inl rfl)
    · exact hif _ hc (Or.inr rfl)
  refine ⟨⟨[("Message", GoVal.str h.securemgrINVALID_PARAMETER),
    ("SecureCmpName", GoVal.str "verifier")], ?_, ?_, ?_⟩, ?_⟩
  · simp [Result.encrypted, hcalls, encryptedOf]
  · simp [GoMap.get]
  · simp [GoMap.get]
  · simp [Result.securemgrRequests, hcalls, securemgrRequestOf]

/-- The hypotheses of C7 hold for an `addHashCWL` payload whose second `Desc` element has no `ContainerHash`, and the handler rejects it. -/
theorem C7_witness :
    SecuremgrReachesParsing
      (sampleHandler (some (securemgrPayload "addHashCWL"
        [("Desc", GoVal.slice [GoVal.map [("ContainerHash", GoVal.str "ab12")],
                               GoVal.map [("ContainerName", GoVal.str "c1")]])]))
        (some []) none)
      localRequest
      (securemgrPayload "addHashCWL"
        [("Desc", GoVal.slice [GoVal.map [("ContainerHash", GoVal.str "ab12")],
                               GoVal.map [("ContainerName", GoVal.str "c1")]])]) ∧
    ((∃ m, (APIV1RequestSecuremgrPost
        (sampleHandler (some (securemgrPayload "addHashCWL"
          [("Desc", GoVal.slice [GoVal.map [("ContainerHash", GoVal.str "ab12")],
                                 GoVal.map [("ContainerName", GoVal.str "c1")]])]))
          (some []) none)
        localRequest).encrypted = [m] ∧
      m.get "Message" = GoVal.str "INVALID_PARAMETER" ∧
      m.get "SecureCmpName" = GoVal.str "verifier") ∧
    (APIV1RequestSecuremgrPost
      (sampleHandler (some (securemgrPayload "addHashCWL"
        [("Desc", GoVal.slice [GoVal.map [("ContainerHash", GoVal.str "ab12")],
                               GoVal.map [("ContainerName", GoVal.str "c1")]])]))
        (some []) none)
      localRequest).securemgrRequests = []) :=
  ⟨localRequest_reaches_securemgr _ _,
    C7_mutating_command_requires_desc _ _ _ (localRequest_reaches_securemgr _ _)
      (Or.inl rfl)
      (Or.inr ⟨_, rfl, by simp [GoVal.assertMap],
        GoVal.map [("ContainerName", GoVal.str "c1")], by simp,
        [("ContainerName", GoVal.str "c1")], rfl, by simp [GoMap.get]⟩)⟩

/-! ## C8 -/

/-- C8: in `APIV1RequestSecuremgrPost`, for every request that reaches parsing with a
`CmdType` that is absent, not a string, or a string other than `addHashCWL` and
`delHashCWL`, `RequestSecureMgr` is invoked exactly once, with `Desc` empty whatever the
payload's `Desc` is, `SecureInsName` the payload's `SecureMgr` string or `""`, and `CmdType`
the payload's string or `""`; the response mapping carries the secure manager's answer, so
the payload is not rejected. -/
theorem C8_non_mutating_command_dispatches (h : Handler) (r : Request) (appCommand : GoMap)
    (hreach : SecuremgrReachesParsing h r appCommand)
    (hcmd : ∀ s, appCommand.get "CmdType" = GoVal.str s →
      s ≠ "addHashCWL" ∧ s ≠ "delHashCWL") :
    ∃ req, (APIV1RequestSecuremgrPost h r).securemgrRequests = [req] ∧
      req.Desc = [] ∧
      (∀ s, appCommand.get "SecureMgr" = GoVal.str s → req.SecureInsName = s) ∧
      ((∀ s, appCommand.get "SecureMgr" ≠ GoVal.str s) → req.SecureInsName = "") ∧
      (∀ s, appCommand.get "CmdType" = GoVal.str s → req.CmdType = s) ∧
      ((∀ s, appCommand.get "CmdType" ≠ GoVal.str s) → req.CmdType = "") ∧
      (∃ m, (APIV1RequestSecuremgrPost h r).encrypted = [m] ∧
        m.get "Message" = GoVal.str (h.sapiRequestSecureMgr req).Message ∧
        m.get "SecureCmpName" = GoVal.str (h.sapiRequestSecureMgr req).SecureCmpName) ∧
      (APIV1RequestSecuremgrPost h r).outcome ≠ Outcome.panic := by
  have hnot : ¬ ((match (appCommand.get "CmdType").assertString with
      | some s => s
      | none => "") = "addHashCWL" ∨
      (match (appCommand.get "CmdType").assertString with
      | some s => s
      | none => "") = "delHashCWL") := by
    cases hc : (appCommand.get "CmdType").assertString with
    | none => decide
    | some c =>
      have := hcmd c ((assertString_eq_some _ _).1 hc)
      simp [this.1, this.2]
  rw [securemgrPost_of_reaches hreach]
  refine ⟨RequestSecureMgr.mk
    (match (appCommand.get "SecureMgr").assertString with
      | some s => s
      | none => "")
    (match (appCommand.get "CmdType").assertString with
      | some s => s
      | none => "") [], ?_, rfl, ?_, ?_, ?_, ?_,
    ⟨[("Message", GoVal.str (h.sapiRequestSecureMgr (RequestSecureMgr.mk
        (match (appCommand.get "SecureMgr").assertString with
          | some s => s
          | none => "")
        (match (appCommand.get "CmdType").assertString with
          | some s => s
          | none => "") [])).Message),
      ("SecureCmpName", GoVal.str (h.sapiRequestSecureMgr (RequestSecureMgr.mk
        (match (appCommand.get "SecureMgr").assertString with
          | some s => s
          | none => "")
        (match (appCommand.get "CmdType").assertString with
          | some s => s
          | none => "") [])).SecureCmpName)], ?_, ?_, ?_⟩, ?_⟩
  · simp [Result.securemgrRequests, securemgrCommand, hnot, securemgrDispatch,
      securemgrSendResp_calls, securemgrRequestOf]
  · intro s hs; simp [hs, GoVal.assertString]
  · intro hs; simp [(assertString_eq_none _).2 hs]
  · intro s hs; simp [hs, GoVal.assertString]
  · intro hs; simp [(assertString_eq_none _).2 hs]
  · simp only [Result.encrypted, securemgrCommand, hnot, securemgrDispatch, if_false,
      securemgrSendResp_calls]
    simp [encryptedOf]
  · simp [GoMap.get]
  · simp [GoMap.get]
  · simp only [securemgrCommand, hnot, securemgrDispatch, if_false, securemgrSendResp]
    split <;> simp

/-- The hypotheses of C8 hold for a `getStatus` payload whose `Desc` is a number: it is dispatched once, with `Desc` empty. -/
theorem C8_witness :
    SecuremgrReachesParsing
      (sampleHandler (some (securemgrPayload "getStatus" [("Desc", GoVal.num 4)]))
        (some []) none)
      localRequest (securemgrPayload "getStatus" [("Desc", GoVal.num 4)]) ∧
    (APIV1RequestSecuremgrPost
      (sampleHandler (some (securemgrPayload "getStatus" [("Desc", GoVal.num 4)]))
        (some []) none)
      localRequest).securemgrRequests =
      [{ SecureInsName := "verifier", CmdType := "getStatus", Desc := [] }] ∧
    (∃ req, (APIV1RequestSecuremgrPost
      (sampleHandler (some (securemgrPayload "getStatus" [("Desc", GoVal.num 4)]))
        (some []) none)
      localRequest).securemgrRequests = [req] ∧ req.Desc = []) :=
  ⟨localRequest_reaches_securemgr _ _, by decide,
    (C8_non_mutating_command_dispatches _ _ _ (localRequest_reaches_securemgr _ _)
      (by
        intro s hs
        have hs' : s = "getStatus" := by
          simpa [securemgrPayload, GoMap.get] using hs.symm
        subst hs'
        decide)).imp fun _ hreq => ⟨hreq.1, hreq.2.1⟩⟩

/-! ## C9 -/

/-- C9: in both handlers, if the capability is unset, or else the key is unset, or else `GetIPs`
fails, the handler answers 503 with no body and calls neither `DecryptByteToJSON`,
`EncryptJSONToByte` nor a capability, whatever the request body and the origin (loopback,
allowed or forbidden). An unset capability or key gives this for every `RemoteAddr`; a failing
`GetIPs` gives it in `APIV1RequestSecuremgrPost` for every `RemoteAddr`, and in
`APIV1RequestServicePost` for every `RemoteAddr` of the `host:port` form (one that holds a
colon) and in every run that gets to call `GetIPs`. -/
theorem C9_precheck_failure_answers_503 (h : Handler) (r : Request) :
    ((h.isSetAPI = false ∨ h.IsSetKey = false ∨
        (h.GetIPs = none ∧ (':' ∈ r.RemoteAddr.data ∨
          Call.GetIPs ∈ (APIV1RequestServicePost h r).calls))) →
      (APIV1RequestServicePost h r).outcome = Outcome.Response StatusServiceUnavailable ∧
      (APIV1RequestServicePost h r).decrypted = [] ∧
      (APIV1RequestServicePost h r).encrypted = [] ∧
      (APIV1RequestServicePost h r).serviceRequests = [] ∧
      (APIV1RequestServicePost h r).securemgrRequests = []) ∧
    ((h.isSetSecureAPI = false ∨ h.IsSetKey = false ∨ h.GetIPs = none) →
      (APIV1RequestSecuremgrPost h r).outcome = Outcome.Response StatusServiceUnavailable ∧
      (APIV1RequestSecuremgrPost h r).decrypted = [] ∧
      (APIV1RequestSecuremgrPost h r).encrypted = [] ∧
      (APIV1RequestSecuremgrPost h r).serviceRequests = [] ∧
      (APIV1RequestSecuremgrPost h r).securemgrRequests = []) := by
  constructor
  · intro hpre
    by_cases hapi : h.isSetAPI = false
    · simp [APIV1RequestServicePost, hapi, Result.decrypted, Result.encrypted,
        Result.serviceRequests, Result.securemgrRequests]
    · by_cases hkey : h.IsSetKey = false
      · simp [APIV1RequestServicePost, hkey, Result.decrypted, Result.encrypted,
          Result.serviceRequests, Result.securemgrRequests]
      · obtain ⟨hips, hcolon⟩ : h.GetIPs = none ∧ ':' ∈ r.RemoteAddr.data := by
          rcases hpre with h1 | h1 | ⟨h1, h2 | h2⟩
          · exact absurd h1 hapi
          · exact absurd h1 hkey
          · exact ⟨h1, h2⟩
          · exact ⟨h1, colon_of_servicePost_calls_GetIPs h r h2⟩
        obtain ⟨addr, portStr, ho⟩ := serviceOrigin_isSome r.RemoteAddr hcolon
        simp [APIV1RequestServicePost, hapi, hkey, ho, hips, Result.decrypted,
          Result.encrypted, Result.serviceRequests, Result.securemgrRequests, decryptedOf,
          encryptedOf, serviceRequestOf, securemgrRequestOf]
  · intro hpre
    by_cases hapi : h.isSetSecureAPI = false
    · simp [APIV1RequestSecuremgrPost, hapi, Result.decrypted, Result.encrypted,
        Result.serviceRequests, Result.securemgrRequests]
    · by_cases hkey : h.IsSetKey = false
      · simp [APIV1RequestSecuremgrPost, hkey, Result.decrypted, Result.encrypted,
          Result.serviceRequests, Result.securemgrRequests]
      · have hips : h.GetIPs = none := by
          rcases hpre with h1 | h1 | h1
          · exact absurd h1 hapi
          · exact absurd h1 hkey
          · exact h1
        obtain ⟨addr, ho⟩ := securemgrOrigin_isSome r.RemoteAddr
        simp [APIV1RequestSecuremgrPost, hapi, hkey, ho, hips, Result.decrypted,
          Result.encrypted, Result.serviceRequests, Result.securemgrRequests, decryptedOf,
          encryptedOf, serviceRequestOf, securemgrRequestOf]

/-- C9 at a handler whose `GetIPs` fails, for the loopback caller `127.0.0.1:4000` and the
caller `10.0.0.5:4000`: both handlers answer 503 and call nothing further. -/
theorem C9_witness :
    ((sampleHandler none none none).GetIPs = none ∧ ':' ∈ remoteRequest.RemoteAddr.data) ∧
    ((APIV1RequestServicePost (sampleHandler none none none) remoteRequest).outcome =
        Outcome.Response StatusServiceUnavailable ∧
      (APIV1RequestServicePost (sampleHandler none none none) remoteRequest).decrypted = [] ∧
      (APIV1RequestServicePost (sampleHandler none none none) remoteRequest).encrypted = [] ∧
      (APIV1RequestServicePost (sampleHandler none none none) remoteRequest).serviceRequests
        = [] ∧
      (APIV1RequestServicePost (sampleHandler none none none) remoteRequest).securemgrRequests
        = []) ∧
    ((APIV1RequestServicePost (sampleHandler none none none) localRequest).outcome =
        Outcome.Response StatusServiceUnavailable ∧
      (APIV1RequestServicePost (sampleHandler none none none) localRequest).decrypted = [] ∧
      (APIV1RequestServicePost (sampleHandler none none none) localRequest).encrypted = [] ∧
      (APIV1RequestServicePost (sampleHandler none none none) localRequest).serviceRequests
        = [] ∧
      (APIV1RequestServicePost (sampleHandler none none none) localRequest).securemgrRequests
        = []) ∧
    ((APIV1RequestSecuremgrPost (sampleHandler none none none) remoteRequest).outcome =
        Outcome.Response StatusServiceUnavailable ∧
      (APIV1RequestSecuremgrPost (sampleHandler none none none) remoteRequest).decrypted
        = [] ∧
      (APIV1RequestSecuremgrPost (sampleHandler none none none) remoteRequest).encrypted
        = [] ∧
      (APIV1RequestSecuremgrPost (sampleHandler none none none) remoteRequest).serviceRequests
        = [] ∧
      (APIV1RequestSecuremgrPost
        (sampleHandler none none none) remoteRequest).securemgrRequests = []) :=
  ⟨⟨rfl, by decide⟩,
    (C9_precheck_failure_answers_503 (sampleHandler none none none) remoteRequest).1
      (Or.inr (Or.inr ⟨rfl, Or.inl (by decide)⟩)),
    (C9_precheck_failure_answers_503 (sampleHandler none none none) localRequest).1
      (Or.inr (Or.inr ⟨rfl, Or.inl (by decide)⟩)),
    (C9_precheck_failure_answers_503 (sampleHandler none none none) remoteRequest).2
      (Or.inr (Or.inr rfl))⟩

/-! ## C10 -/

/-- C10: in both handlers, when the request is authorized (API and key set, `GetIPs` answers,
the origin is not refused) and `DecryptByteToJSON` rejects the body, the handler answers 503
with no body and its calls are exactly `GetIPs` and `DecryptByteToJSON`: the port resolver,
the capability and `EncryptJSONToByte` are not invoked. -/
theorem C10_decrypt_failure_is_terminal (h : Handler) (r : Request) (ips : List String)
    (hkey : h.IsSetKey = true) (hips : h.GetIPs = some ips)
    (hdec : h.DecryptByteToJSON r.Body = none) :
    (∀ addr portStr, h.isSetAPI = true → serviceOrigin r.RemoteAddr = some (addr, portStr) →
      originRefused ips addr = false →
      (APIV1RequestServicePost h r).outcome = Outcome.Response StatusServiceUnavailable ∧
      (APIV1RequestServicePost h r).calls = [Call.GetIPs, Call.DecryptByteToJSON r.Body] ∧
      (APIV1RequestServicePost h r).resolved = [] ∧
      (APIV1RequestServicePost h r).serviceRequests = [] ∧
      (APIV1RequestServicePost h r).encrypted = []) ∧
    (∀ addr, h.isSetSecureAPI = true → securemgrOrigin r.RemoteAddr = some addr →
      originRefused ips addr = false →
      (APIV1RequestSecuremgrPost h r).outcome = Outcome.Response StatusServiceUnavailable ∧
      (APIV1RequestSecuremgrPost h r).calls = [Call.GetIPs, Call.DecryptByteToJSON r.Body] ∧
      (APIV1RequestSecuremgrPost h r).securemgrRequests = [] ∧
      (APIV1RequestSecuremgrPost h r).encrypted = []) := by
  constructor
  · intro addr portStr hapi ho hauth
    simp [APIV1RequestServicePost, hapi, hkey, ho, hips, hauth, hdec, Result.resolved,
      Result.serviceRequests, Result.encrypted, resolvedOf, serviceRequestOf, encryptedOf]
  · intro addr hapi ho hauth
    simp [APIV1RequestSecuremgrPost, hapi, hkey, ho, hips, hauth, hdec,
      Result.securemgrRequests, Result.encrypted, securemgrRequestOf, encryptedOf]

/-- The hypotheses of C10 hold for a loopback request whose body the key rejects: both handlers answer 503 after `GetIPs` and `DecryptByteToJSON` only. -/
theorem C10_witness :
    ((APIV1RequestServicePost (sampleHandler none (some []) (some "resolved"))
        localRequest).outcome = Outcome.Response StatusServiceUnavailable ∧
      (APIV1RequestServicePost (sampleHandler none (some []) (some "resolved"))
        localRequest).calls = [Call.GetIPs, Call.DecryptByteToJSON localRequest.Body] ∧
      (APIV1RequestServicePost (sampleHandler none (some []) (some "resolved"))
        localRequest).resolved = [] ∧
      (APIV1RequestServicePost (sampleHandler none (some []) (some "resolved"))
        localRequest).serviceRequests = [] ∧
      (APIV1RequestServicePost (sampleHandler none (some []) (some "resolved"))
        localRequest).encrypted = []) ∧
    ((APIV1RequestSecuremgrPost (sampleHandler none (some []) (some "resolved"))
        localRequest).outcome = Outcome.Response StatusServiceUnavailable ∧
      (APIV1RequestSecuremgrPost (sampleHandler none (some []) (some "resolved"))
        localRequest).calls = [Call.GetIPs, Call.DecryptByteToJSON localRequest.Body] ∧
      (APIV1RequestSecuremgrPost (sampleHandler none (some []) (some "resolved"))
        localRequest).securemgrRequests = [] ∧
      (APIV1RequestSecuremgrPost (sampleHandler none (some []) (some "resolved"))
        localRequest).encrypted = []) :=
  ⟨(C10_decrypt_failure_is_terminal (sampleHandler none (some []) (some "resolved"))
      localRequest [] rfl rfl rfl).1 "127.0.0.1" "4000" rfl (by decide) (by decide),
    (C10_decrypt_failure_is_terminal (sampleHandler none (some []) (some "resolved"))
      localRequest [] rfl rfl rfl).2 "127.0.0.1" rfl (by decide) (by decide)⟩

/-! ## Facts for the validation loops and the response -/

theorem exeCmdLoop_map_str (ss : List String) :
    exeCmdLoop (ss.map GoVal.str) = some ss := by
  induction ss with
  | nil => rfl
  | cons x xs ih => simp [exeCmdLoop, GoVal.assertString, ih]

/-- The loop over `executeEnvs` translates a sequence of well-formed entries element by element. -/
theorem serviceInfoLoop_of_describes {envs : List GoVal} {infos : List RequestServiceInfo}
    (hd : List.Forall₂ EntryDescribes envs infos) :
    serviceInfoLoop envs = LoopExit.done infos := by
  induction hd with
  | nil => rfl
  | cons hx _ ih =>
    obtain ⟨tmp, hm, het, hec⟩ := hx
    simp [serviceInfoLoop, hm, het, hec, GoVal.assertString, GoVal.assertSlice,
      exeCmdLoop_map_str, ih]

/-- The loop over `containerDescs` translates a sequence of well-formed descriptors. -/
theorem descLoop_of_describes {xs : List GoVal} {descs : List RequestDescInfo}
    (hd : List.Forall₂ DescDescribes xs descs) :
    descLoop xs = LoopExit.done descs := by
  induction hd with
  | nil => rfl
  | cons hx _ ih =>
    obtain ⟨tmp, hm, hh⟩ := hx
    simp [descLoop, hm, hh, GoVal.assertString, ih]

theorem descLoop_append_invalid (pre : List GoVal) (descs : List RequestDescInfo)
    (e : GoVal) (tmp : GoMap) (post : List GoVal)
    (hpre : List.Forall₂ DescDescribes pre descs) (he : e.assertMap = some tmp)
    (hbad : ∀ s, tmp.get "ContainerHash" ≠ GoVal.str s) :
    descLoop (pre ++ e :: post) = LoopExit.invalid := by
  induction hpre with
  | nil => simp [descLoop, he, (assertString_eq_none _).2 hbad]
  | cons hx _ ih =>
    obtain ⟨tmp', hm, hh⟩ := hx
    simp [descLoop, hm, hh, GoVal.assertString, ih]

theorem resolveByPort_snd (h : Handler) (portStr : String) :
    (resolveByPort h portStr).2 = (Atoi portStr).bind h.GetNameByPort := by
  unfold resolveByPort
  cases hp : Atoi portStr with
  | none => rfl
  | some port => cases hn : h.GetNameByPort port <;> simp [hn]

/-- The requester found by lines 161-184: by port first, else the payload's string. -/
theorem requester_isSome_iff (h : Handler) (portStr : String) (appCommand : GoMap) :
    (∃ rq, (match (resolveByPort h portStr).2 with
        | some requester => some requester
        | none => (appCommand.get "ServiceRequester").assertString) = some rq) ↔
      RequesterResolves h portStr appCommand := by
  rw [resolveByPort_snd]
  unfold RequesterResolves
  cases hp : Atoi portStr with
  | none => simp [assertString_eq_some]
  | some port =>
    cases hn : h.GetNameByPort port with
    | none => simp [hn, assertString_eq_some]
    | some p => simp [hn]

/-- A payload that fails validation reaches `SEND_RESP` with `INVALID_PARAMETER`, the name known
so far and the nil target info, after the port lookup only. -/
theorem serviceCommand_of_fails (h : Handler) (calls : List Call) (portStr : String)
    (appCommand : GoMap) (name : String)
    (hfail : ServiceValidationFails h portStr appCommand name) :
    serviceCommand h calls portStr appCommand =
      serviceSendResp h (calls ++ (resolveByPort h portStr).1)
        h.orchestrationINVALID_PARAMETER name GoVal.nilMap := by
  have hiff := requester_isSome_iff h portStr appCommand
  unfold serviceCommand
  simp only []
  rcases hfail with ⟨hname, hno | hno⟩ | ⟨hres, hn, hinfo⟩
  · subst hname
    have hnone : (match (resolveByPort h portStr).2 with
        | some requester => some requester
        | none => (appCommand.get "ServiceRequester").assertString) = none := by
      cases hq : (match (resolveByPort h portStr).2 with
        | some requester => some requester
        | none => (appCommand.get "ServiceRequester").assertString) with
      | none => rfl
      | some rq => exact absurd (hiff.1 ⟨rq, hq⟩) hno
    rw [hnone]
  · subst hname
    rw [(assertString_eq_none _).2 hno]
    split <;> rfl
  · obtain ⟨rq, hrq⟩ := hiff.2 hres
    rw [hrq, hn]
    simp only [GoVal.assertString]
    rcases hinfo with hns | ⟨pre, infos, e, post, hsl, hpre, tmp, he, hbad⟩
    · rw [(assertSlice_eq_none _).2 hns]
    · rw [hsl]
      simp only [GoVal.assertSlice]
      rw [serviceInfoLoop_append_invalid pre infos e tmp post
        (serviceInfoLoop_of_describes hpre) he hbad]

/-- A valid payload is dispatched: the run of `serviceCommand` on it. -/
theorem serviceCommand_of_valid (h : Handler) (calls : List Call) (portStr : String)
    (appCommand : GoMap) (n : String) (envs : List GoVal) (infos : List RequestServiceInfo)
    (hres : RequesterResolves h portStr appCommand)
    (hname : appCommand.get "ServiceName" = GoVal.str n)
    (hinfo : appCommand.get "ServiceInfo" = GoVal.slice envs)
    (hd : List.Forall₂ EntryDescribes envs infos) :
    ∃ sel rq, serviceCommand h calls portStr appCommand =
      serviceSendResp h
        (calls ++ (resolveByPort h portStr).1 ++ [Call.RequestService ⟨sel, n, infos, rq⟩])
        (h.apiRequestService ⟨sel, n, infos, rq⟩).Message
        (h.apiRequestService ⟨sel, n, infos, rq⟩).ServiceName
        (GoVal.map
          [("ExecutionType",
              GoVal.str (h.apiRequestService ⟨sel, n, infos, rq⟩).RemoteTargetInfo.ExecutionType),
           ("Target",
              GoVal.str (h.apiRequestService ⟨sel, n, infos, rq⟩).RemoteTargetInfo.Target)]) := by
  obtain ⟨rq, hrq⟩ := (requester_isSome_iff h portStr appCommand).2 hres
  have e1 : (GoVal.str n).assertString = some n := rfl
  have e2 : (GoVal.slice envs).assertSlice = some envs := rfl
  refine ⟨if (match (appCommand.get "SelfSelection").assertString with
    | some s => s
    | none => "true") = "true" then true else false, rq, ?_⟩
  unfold serviceCommand
  simp only []
  rw [hrq, hname, hinfo]
  simp only [e1, e2, serviceInfoLoop_of_describes hd, List.append_assoc]

theorem serviceSendResp_outcome_of_some (h : Handler) (calls : List Call) (msg name : String)
    (ti : GoVal) (bytes : Bytes)
    (henc : h.EncryptJSONToByte
      [("Message", GoVal.str msg), ("ServiceName", GoVal.str name),
       ("RemoteTargetInfo", ti)] = some bytes) :
    (serviceSendResp h calls msg name ti).outcome = Outcome.ResponseJSON bytes StatusOK := by
  simp [serviceSendResp, henc]

theorem securemgrSendResp_outcome_of_some (h : Handler) (calls : List Call) (msg name : String)
    (bytes : Bytes)
    (henc : h.EncryptJSONToByte
      [("Message", GoVal.str msg), ("SecureCmpName", GoVal.str name)] = some bytes) :
    (securemgrSendResp h calls msg name).outcome = Outcome.ResponseJSON bytes StatusOK := by
  simp [securemgrSendResp, henc]

/-- A secure-manager payload that fails validation reaches `SEND_RESP` with `INVALID_PARAMETER`
and the name `verifier`, without any further call. -/
theorem securemgrCommand_of_fails (h : Handler) (calls : List Call) (appCommand : GoMap)
    (hfail : SecuremgrValidationFails appCommand) :
    securemgrCommand h calls appCommand =
      securemgrSendResp h calls h.securemgrINVALID_PARAMETER "verifier" := by
  obtain ⟨hcmd, hdesc⟩ := hfail
  have hif : ∀ c : String, appCommand.get "CmdType" = GoVal.str c →
      (c = "addHashCWL" ∨ c = "delHashCWL") →
      securemgrCommand h calls appCommand =
        securemgrSendResp h calls h.securemgrINVALID_PARAMETER "verifier" := by
    intro c hc hmut
    simp only [securemgrCommand, hc, GoVal.assertString, hmut, if_true]
    rcases hdesc with hno | ⟨pre, descs, e, post, tmp, hsl, hpre, he, hbad⟩
    · simp [(assertSlice_eq_none _).2 hno]
    · simp [hsl, GoVal.assertSlice, descLoop_append_invalid pre descs e tmp post hpre he hbad]
  rcases hcmd with hc | hc
  · exact hif _ hc (Or.inl rfl)
  · exact hif _ hc (Or.inr rfl)

/-! ## C11 -/

/-- The failures that the handlers check: in both handlers, for every request that reaches
parsing with a payload that fails one of the checks of lines 176-217 or 310-334, if
`EncryptJSONToByte` succeeds on the response mapping then the answer is `200 OK` with exactly
that encryption as body; the mapping handed to encryption is the one holding
`Message = INVALID_PARAMETER` and the name known so far (`ServiceName`, or
`SecureCmpName = "verifier"`), and the capability is not invoked. -/
theorem checked_failure_is_carried_in_200 (h : Handler) (r : Request) :
    (∀ portStr appCommand name bytes, ServiceReachesParsing h r portStr appCommand →
      ServiceValidationFails h portStr appCommand name →
      h.EncryptJSONToByte
        [("Message", GoVal.str h.orchestrationINVALID_PARAMETER),
         ("ServiceName", GoVal.str name), ("RemoteTargetInfo", GoVal.nilMap)] = some bytes →
      (APIV1RequestServicePost h r).outcome = Outcome.ResponseJSON bytes StatusOK ∧
      (APIV1RequestServicePost h r).encrypted =
        [[("Message", GoVal.str h.orchestrationINVALID_PARAMETER),
          ("ServiceName", GoVal.str name), ("RemoteTargetInfo", GoVal.nilMap)]] ∧
      (APIV1RequestServicePost h r).serviceRequests = []) ∧
    (∀ appCommand bytes, SecuremgrReachesParsing h r appCommand →
      SecuremgrValidationFails appCommand →
      h.EncryptJSONToByte
        [("Message", GoVal.str h.securemgrINVALID_PARAMETER),
         ("SecureCmpName", GoVal.str "verifier")] = some bytes →
      (APIV1RequestSecuremgrPost h r).outcome = Outcome.ResponseJSON bytes StatusOK ∧
      (APIV1RequestSecuremgrPost h r).encrypted =
        [[("Message", GoVal.str h.securemgrINVALID_PARAMETER),
          ("SecureCmpName", GoVal.str "verifier")]] ∧
      (APIV1RequestSecuremgrPost h r).securemgrRequests = []) := by
  constructor
  · intro portStr appCommand name bytes hreach hfail henc
    rw [servicePost_of_reaches hreach, serviceCommand_of_fails _ _ _ _ _ hfail]
    refine ⟨serviceSendResp_outcome_of_some _ _ _ _ _ _ henc, ?_, ?_⟩
    · simp [Result.encrypted, serviceSendResp_calls, resolveByPort_encrypted, encryptedOf]
    · simp [Result.serviceRequests, serviceSendResp_calls, resolveByPort_serviceRequests,
        serviceRequestOf]
  · intro appCommand bytes hreach hfail henc
    rw [securemgrPost_of_reaches hreach, securemgrCommand_of_fails _ _ _ hfail]
    refine ⟨securemgrSendResp_outcome_of_some _ _ _ _ _ henc, ?_, ?_⟩
    · simp [Result.encrypted, securemgrSendResp_calls, encryptedOf]
    · simp [Result.securemgrRequests, securemgrSendResp_calls, securemgrRequestOf]

/-- The spec's test payload (element 1 without `ExecCmd`) and an `addHashCWL` payload without
`Desc` fail a check of the handlers: both are answered `200` with the encrypted rejection. -/
theorem checked_failure_is_carried_in_200_example :
    ((APIV1RequestServicePost
        (sampleHandler (some payloadSecondMalformed) (some []) (some "resolved"))
        localRequest).outcome = Outcome.ResponseJSON [1] StatusOK ∧
      (APIV1RequestServicePost
        (sampleHandler (some payloadSecondMalformed) (some []) (some "resolved"))
        localRequest).encrypted =
        [[("Message", GoVal.str "INVALID_PARAMETER"), ("ServiceName", GoVal.str "svc"),
          ("RemoteTargetInfo", GoVal.nilMap)]] ∧
      (APIV1RequestServicePost
        (sampleHandler (some payloadSecondMalformed) (some []) (some "resolved"))
        localRequest).serviceRequests = []) ∧
    ((APIV1RequestSecuremgrPost
        (sampleHandler (some (securemgrPayload "addHashCWL" [])) (some []) none)
        localRequest).outcome = Outcome.ResponseJSON [1] StatusOK ∧
      (APIV1RequestSecuremgrPost
        (sampleHandler (some (securemgrPayload "addHashCWL" [])) (some []) none)
        localRequest).encrypted =
        [[("Message", GoVal.str "INVALID_PARAMETER"),
          ("SecureCmpName", GoVal.str "verifier")]] ∧
      (APIV1RequestSecuremgrPost
        (sampleHandler (some (securemgrPayload "addHashCWL" [])) (some []) none)
        localRequest).securemgrRequests = []) :=
  ⟨(checked_failure_is_carried_in_200
      (sampleHandler (some payloadSecondMalformed) (some []) (some "resolved"))
      localRequest).1 "4000" payloadSecondMalformed "svc" [1]
      (localRequest_reaches_service _ _)
      (Or.inr ⟨Or.inl ⟨4000, "resolved", by decide, rfl⟩, rfl,
        Or.inr ⟨[validEntry], [{ ExecutionType := "native", ExeCmd := ["ls", "-l"] }],
          GoVal.map [("ExecutionType", GoVal.str "native")], [], rfl,
          List.Forall₂.cons ⟨_, rfl, rfl, rfl⟩ List.Forall₂.nil,
          _, rfl, Or.inr (by simp [GoMap.get])⟩⟩)
      rfl,
    (checked_failure_is_carried_in_200
      (sampleHandler (some (securemgrPayload "addHashCWL" [])) (some []) none)
      localRequest).2 (securemgrPayload "addHashCWL" []) [1]
      (localRequest_reaches_securemgr _ _)
      ⟨Or.inl rfl, Or.inl (by simp [securemgrPayload, GoMap.get])⟩
      rfl⟩

/-- C11, on inputs where the claim fails: the request reaches parsing, the payload fails
validation (`ServiceInfo = [7]`, a `ServiceInfo` entry with `ExecCmd = ["ls", 5]`, and
`Desc = [3]` under `addHashCWL`), and `EncryptJSONToByte` would succeed on the rejection
mapping; yet the handlers panic on the single-value assertions of lines 203, 221 and 320: the
answer is not `200 OK`, and no mapping holding `INVALID_PARAMETER` is handed to encryption. -/
theorem C11_unchecked_failure_panics_instead_of_200 :
    (sampleHandler (some (payloadWithInfo [GoVal.num 7])) (some []) none).EncryptJSONToByte
      [("Message", GoVal.str "INVALID_PARAMETER"), ("ServiceName", GoVal.str "svc"),
       ("RemoteTargetInfo", GoVal.nilMap)] = some [1] ∧
    ((APIV1RequestServicePost
        (sampleHandler (some (payloadWithInfo [GoVal.num 7])) (some []) none)
        localRequest).outcome = Outcome.panic ∧
      (APIV1RequestServicePost
        (sampleHandler (some (payloadWithInfo [GoVal.num 7])) (some []) none)
        localRequest).outcome ≠ Outcome.ResponseJSON [1] StatusOK ∧
      (APIV1RequestServicePost
        (sampleHandler (some (payloadWithInfo [GoVal.num 7])) (some []) none)
        localRequest).encrypted = []) ∧
    ((APIV1RequestServicePost
        (sampleHandler (some (payloadWithInfo
          [GoVal.map [("ExecutionType", GoVal.str "native"),
                      ("ExecCmd", GoVal.slice [GoVal.str "ls", GoVal.num 5])]]))
          (some []) none)
        localRequest).outcome = Outcome.panic ∧
      (APIV1RequestServicePost
        (sampleHandler (some (payloadWithInfo
          [GoVal.map [("ExecutionType", GoVal.str "native"),
                      ("ExecCmd", GoVal.slice [GoVal.str "ls", GoVal.num 5])]]))
          (some []) none)
        localRequest).encrypted = []) ∧
    ((APIV1RequestSecuremgrPost
        (sampleHandler (some (payloadWithDesc [GoVal.num 3])) (some []) none)
        localRequest).outcome = Outcome.panic ∧
      (APIV1RequestSecuremgrPost
        (sampleHandler (some (payloadWithDesc [GoVal.num 3])) (some []) none)
        localRequest).outcome ≠ Outcome.ResponseJSON [1] StatusOK ∧
      (APIV1RequestSecuremgrPost
        (sampleHandler (some (payloadWithDesc [GoVal.num 3])) (some []) none)
        localRequest).encrypted = []) :=
  ⟨rfl, ⟨by decide, by decide, rfl⟩, ⟨by decide, rfl⟩, ⟨by decide, by decide, rfl⟩⟩

/-! ## C12 -/

/-- The loop over `executeEnvs` panics at the first element that is not a map, when the
elements before it are well formed. -/
theorem serviceInfoLoop_append_panic_of_not_map (pre : List GoVal)
    (infos : List RequestServiceInfo) (e : GoVal) (post : List GoVal)
    (hpre : List.Forall₂ EntryDescribes pre infos) (he : e.assertMap = none) :
    serviceInfoLoop (pre ++ e :: post) = LoopExit.panic := by
  induction hpre with
  | nil => simp [serviceInfoLoop, he]
  | cons hx _ ih =>
    obtain ⟨tmp, hm, het, hec⟩ := hx
    simp [serviceInfoLoop, hm, het, hec, GoVal.assertString, GoVal.assertSlice,
      exeCmdLoop_map_str, ih]

/-- C12, on inputs where the claim fails: the requester resolves, `ServiceName` is the string
`svc`, and `ServiceInfo` holds an element that is a string, a number or null. The handler
panics on the single-value assertion of line 203: it does not complete with a response,
nothing is encrypted, nothing is dispatched. -/
theorem C12_non_map_element_panics :
    ((APIV1RequestServicePost
        (sampleHandler (some (payloadWithInfo [validEntry, GoVal.str "ls"])) (some []) none)
        localRequest).outcome = Outcome.panic ∧
      (APIV1RequestServicePost
        (sampleHandler (some (payloadWithInfo [validEntry, GoVal.str "ls"])) (some []) none)
        localRequest).encrypted = []) ∧
    ((APIV1RequestServicePost
        (sampleHandler (some (payloadWithInfo [GoVal.num 7])) (some []) none)
        localRequest).outcome = Outcome.panic ∧
      (APIV1RequestServicePost
        (sampleHandler (some (payloadWithInfo [GoVal.num 7])) (some []) none)
        localRequest).encrypted = []) ∧
    ((APIV1RequestServicePost
        (sampleHandler (some (payloadWithInfo [GoVal.nil])) (some []) none)
        localRequest).outcome = Outcome.panic ∧
      (APIV1RequestServicePost
        (sampleHandler (some (payloadWithInfo [GoVal.nil])) (some []) none)
        localRequest).encrypted = []) :=
  ⟨⟨by decide, rfl⟩, ⟨by decide, rfl⟩, ⟨by decide, rfl⟩⟩

/-! ## C13 -/

/-- The inner loop panics exactly when `ExecCmd` holds an element that is not a string. -/
theorem exeCmdLoop_eq_none_iff (exeCmd : List GoVal) :
    exeCmdLoop exeCmd = none ↔ ∃ cmd ∈ exeCmd, ∀ s, cmd ≠ GoVal.str s := by
  induction exeCmd with
  | nil => simp [exeCmdLoop]
  | cons c cs ih =>
    cases hc : c.assertString with
    | none =>
      simp only [exeCmdLoop, hc, true_iff]
      exact ⟨c, List.mem_cons_self _ _, (assertString_eq_none _).1 hc⟩
    | some s =>
      have hcs := (assertString_eq_some _ _).1 hc
      cases hl : exeCmdLoop cs with
      | none =>
        simp only [exeCmdLoop, hc, hl, true_iff]
        obtain ⟨cmd, hmem, hno⟩ := ih.1 hl
        exact ⟨cmd, List.mem_cons_of_mem _ hmem, hno⟩
      | some ss =>
        simp only [exeCmdLoop, hc, hl, reduceCtorEq, false_iff]
        rintro ⟨cmd, hmem, hno⟩
        rcases List.mem_cons.1 hmem with h1 | h1
        · exact hno s (h1 ▸ hcs)
        · have := ih.2 ⟨cmd, h1, hno⟩
          rw [hl] at this
          exact absurd this (by simp)

/-- C13, on the input where the claim fails: the requester resolves, `ServiceName` is the string
`svc`, and the only `ServiceInfo` entry carries `ExecCmd = ["ls", 5]`. The handler panics on
the single-value assertion `cmd.(string)` of line 221: it does not complete with a response,
nothing is encrypted, nothing is dispatched. -/
theorem C13_non_string_command_panics :
    (APIV1RequestServicePost
      (sampleHandler (some (payloadWithInfo
        [GoVal.map [("ExecutionType", GoVal.str "native"),
                    ("ExecCmd", GoVal.slice [GoVal.str "ls", GoVal.num 5])]]))
        (some []) none)
      localRequest).outcome = Outcome.panic ∧
    (APIV1RequestServicePost
      (sampleHandler (some (payloadWithInfo
        [GoVal.map [("ExecutionType", GoVal.str "native"),
                    ("ExecCmd", GoVal.slice [GoVal.str "ls", GoVal.num 5])]]))
        (some []) none)
      localRequest).encrypted = [] ∧
    (APIV1RequestServicePost
      (sampleHandler (some (payloadWithInfo
        [GoVal.map [("ExecutionType", GoVal.str "native"),
                    ("ExecCmd", GoVal.slice [GoVal.str "ls", GoVal.num 5])]]))
        (some []) none)
      localRequest).serviceRequests = [] :=
  ⟨by decide, rfl, by decide⟩

/-! ## C14 -/

/-- The loop over `containerDescs` panics at the first element that is not a map, when the
elements before it are well formed. -/
theorem descLoop_append_panic_of_not_map (pre : List GoVal) (descs : List RequestDescInfo)
    (e : GoVal) (post : List GoVal)
    (hpre : List.Forall₂ DescDescribes pre descs) (he : e.assertMap = none) :
    descLoop (pre ++ e :: post) = LoopExit.panic := by
  induction hpre with
  | nil => simp [descLoop, he]
  | cons hx _ ih =>
    obtain ⟨tmp, hm, hh⟩ := hx
    simp [descLoop, hm, hh, GoVal.assertString, ih]

/-- C14, on inputs where the claim fails: `CmdType` is `addHashCWL` and `Desc` holds an element
that is a string or a number. The handler panics on the single-value assertion of line 320:
it does not complete with a response, nothing is encrypted, nothing is dispatched. -/
theorem C14_non_map_desc_element_panics :
    ((APIV1RequestSecuremgrPost
        (sampleHandler (some (payloadWithDesc
          [GoVal.map [("ContainerHash", GoVal.str "ab12")], GoVal.str "cd34"]))
          (some []) none)
        localRequest).outcome = Outcome.panic ∧
      (APIV1RequestSecuremgrPost
        (sampleHandler (some (payloadWithDesc
          [GoVal.map [("ContainerHash", GoVal.str "ab12")], GoVal.str "cd34"]))
          (some []) none)
        localRequest).encrypted = [] ∧
      (APIV1RequestSecuremgrPost
        (sampleHandler (some (payloadWithDesc
          [GoVal.map [("ContainerHash", GoVal.str "ab12")], GoVal.str "cd34"]))
          (some []) none)
        localRequest).securemgrRequests = []) ∧
    ((APIV1RequestSecuremgrPost
        (sampleHandler (some (payloadWithDesc [GoVal.num 3])) (some []) none)
        localRequest).outcome = Outcome.panic ∧
      (APIV1RequestSecuremgrPost
        (sampleHandler (some (payloadWithDesc [GoVal.num 3])) (some []) none)
        localRequest).encrypted = []) :=
  ⟨⟨by decide, rfl, by decide⟩, ⟨by decide, rfl⟩⟩

/-! ## C15 -/

/-- C15: for every request that reaches parsing with a fully valid payload (the requester
resolves, `ServiceName` is the string `n`, `ServiceInfo` is a sequence of well-formed entries
described in order by `infos`), `RequestService` is invoked exactly once, with `ServiceName = n`
and `ServiceInfo = infos` (same length, same order, each entry with that element's
`ExecutionType` and `ExecCmd` strings); and the one response mapping carries the `Message`,
`ServiceName`, `RemoteTargetInfo.ExecutionType` and `RemoteTargetInfo.Target` of the
orchestrator's result. -/
theorem C15_service_dispatch_is_faithful (h : Handler) (r : Request) (portStr : String)
    (appCommand : GoMap) (n : String) (envs : List GoVal) (infos : List RequestServiceInfo)
    (hreach : ServiceReachesParsing h r portStr appCommand)
    (hres : RequesterResolves h portStr appCommand)
    (hname : appCommand.get "ServiceName" = GoVal.str n)
    (hinfo : appCommand.get "ServiceInfo" = GoVal.slice envs)
    (hd : List.Forall₂ EntryDescribes envs infos) :
    ∃ req, (APIV1RequestServicePost h r).serviceRequests = [req] ∧
      req.ServiceName = n ∧ req.ServiceInfo = infos ∧
      ∃ m ti : GoMap, (APIV1RequestServicePost h r).encrypted = [m] ∧
        m.get "Message" = GoVal.str (h.apiRequestService req).Message ∧
        m.get "ServiceName" = GoVal.str (h.apiRequestService req).ServiceName ∧
        m.get "RemoteTargetInfo" = GoVal.map ti ∧
        ti.get "ExecutionType" =
          GoVal.str (h.apiRequestService req).RemoteTargetInfo.ExecutionType ∧
        ti.get "Target" = GoVal.str (h.apiRequestService req).RemoteTargetInfo.Target := by
  obtain ⟨sel, rq, hrun⟩ := serviceCommand_of_valid h [Call.GetIPs, Call.DecryptByteToJSON r.Body]
    portStr appCommand n envs infos hres hname hinfo hd
  rw [servicePost_of_reaches hreach, hrun]
  refine ⟨⟨sel, n, infos, rq⟩, ?_, rfl, rfl,
    [("Message", GoVal.str (h.apiRequestService ⟨sel, n, infos, rq⟩).Message),
     ("ServiceName", GoVal.str (h.apiRequestService ⟨sel, n, infos, rq⟩).ServiceName),
     ("RemoteTargetInfo", GoVal.map
        [("ExecutionType",
            GoVal.str (h.apiRequestService ⟨sel, n, infos, rq⟩).RemoteTargetInfo.ExecutionType),
         ("Target",
            GoVal.str (h.apiRequestService ⟨sel, n, infos, rq⟩).RemoteTargetInfo.Target)])],
    [("ExecutionType",
        GoVal.str (h.apiRequestService ⟨sel, n, infos, rq⟩).RemoteTargetInfo.ExecutionType),
     ("Target",
        GoVal.str (h.apiRequestService ⟨sel, n, infos, rq⟩).RemoteTargetInfo.Target)],
    ?_, ?_, ?_, ?_, ?_, ?_⟩
  · simp [Result.serviceRequests, serviceSendResp_calls, resolveByPort_serviceRequests,
      serviceRequestOf]
  · simp only [Result.encrypted, serviceSendResp_calls, List.filterMap_append,
      resolveByPort_encrypted]
    simp [encryptedOf]
  · simp [GoMap.get]
  · simp [GoMap.get]
  · simp [GoMap.get]
  · simp [GoMap.get]
  · simp [GoMap.get]

theorem sampleEntries_described :
    List.Forall₂ EntryDescribes [validEntry, containerEntry]
      [{ ExecutionType := "native", ExeCmd := ["ls", "-l"] },
       { ExecutionType := "container", ExeCmd := [] }] :=
  List.Forall₂.cons
    ⟨[("ExecutionType", GoVal.str "native"),
      ("ExecCmd", GoVal.slice [GoVal.str "ls", GoVal.str "-l"])], rfl, rfl, rfl⟩
    (List.Forall₂.cons
      ⟨[("ExecCmd", GoVal.slice []), ("ExecutionType", GoVal.str "container")], rfl, rfl, rfl⟩
      List.Forall₂.nil)

/-- The hypotheses of C15 hold for a loopback request with a valid payload of two entries: the
request dispatched carries both entries in order. -/
theorem C15_witness :
    (APIV1RequestServicePost
      (sampleHandler (some (payloadWithInfo [validEntry, containerEntry])) (some []) none)
      localRequest).serviceRequests =
      [{ SelfSelection := true, ServiceName := "svc",
         ServiceInfo := [{ ExecutionType := "native", ExeCmd := ["ls", "-l"] },
                         { ExecutionType := "container", ExeCmd := [] }],
         ServiceRequester := "app" }] ∧
    (∃ req, (APIV1RequestServicePost
      (sampleHandler (some (payloadWithInfo [validEntry, containerEntry])) (some []) none)
      localRequest).serviceRequests = [req] ∧ req.ServiceName = "svc" ∧
      req.ServiceInfo = [{ ExecutionType := "native", ExeCmd := ["ls", "-l"] },
                         { ExecutionType := "container", ExeCmd := [] }]) :=
  ⟨by decide,
    (C15_service_dispatch_is_faithful
      (sampleHandler (some (payloadWithInfo [validEntry, containerEntry])) (some []) none)
      localRequest "4000" (payloadWithInfo [validEntry, containerEntry]) "svc"
      [validEntry, containerEntry]
      [{ ExecutionType := "native", ExeCmd := ["ls", "-l"] },
       { ExecutionType := "container", ExeCmd := [] }]
      (localRequest_reaches_service _ _) (Or.inr ⟨"app", rfl⟩) rfl rfl
      sampleEntries_described).imp
      fun _ hreq => ⟨hreq.1, hreq.2.1, hreq.2.2.1⟩⟩

/-! ## C16 -/

/-- The three ways `securemgrCommand` ends: the rejection, a panic in the loop, or the dispatch
of one request. -/
theorem securemgrCommand_shape (h : Handler) (calls : List Call) (appCommand : GoMap) :
    securemgrCommand h calls appCommand =
        securemgrSendResp h calls h.securemgrINVALID_PARAMETER "verifier" ∨
    securemgrCommand h calls appCommand = ⟨calls, Outcome.panic⟩ ∨
    ∃ req, securemgrCommand h calls appCommand = securemgrDispatch h calls req := by
  unfold securemgrCommand
  simp only []
  split
  · split
    · exact Or.inl rfl
    · split
      · exact Or.inr (Or.inl rfl)
      · exact Or.inl rfl
      · exact Or.inr (Or.inr ⟨_, rfl⟩)
  · exact Or.inr (Or.inr ⟨_, rfl⟩)

theorem securemgrDispatch_calls (h : Handler) (calls : List Call) (req : RequestSecureMgr) :
    (securemgrDispatch h calls req).calls =
      calls ++ [Call.RequestSecureMgr req, Call.EncryptJSONToByte
        [("Message", GoVal.str (h.sapiRequestSecureMgr req).Message),
         ("SecureCmpName", GoVal.str (h.sapiRequestSecureMgr req).SecureCmpName)]] := by
  simp [securemgrDispatch, securemgrSendResp_calls]

/-- C16: for every request that reaches parsing in `APIV1RequestSecuremgrPost`: when `CmdType`
is `addHashCWL` or `delHashCWL` and `Desc` is a sequence of maps each with a string
`ContainerHash`, described in order by `descs`, `RequestSecureMgr` is invoked exactly once with
`Desc = descs` (same length, same order, those hashes); and whenever a request is dispatched,
the one response mapping carries the `Message` and `SecureCmpName` of the secure manager's
result. -/
theorem C16_securemgr_dispatch_is_faithful (h : Handler) (r : Request) (appCommand : GoMap)
    (hreach : SecuremgrReachesParsing h r appCommand) :
    (∀ xs descs, MutatingCmd appCommand → appCommand.get "Desc" = GoVal.slice xs →
      List.Forall₂ DescDescribes xs descs →
      ∃ req, (APIV1RequestSecuremgrPost h r).securemgrRequests = [req] ∧ req.Desc = descs) ∧
    (∀ req ∈ (APIV1RequestSecuremgrPost h r).securemgrRequests,
      ∃ m : GoMap, (APIV1RequestSecuremgrPost h r).encrypted = [m] ∧
        m.get "Message" = GoVal.str (h.sapiRequestSecureMgr req).Message ∧
        m.get "SecureCmpName" = GoVal.str (h.sapiRequestSecureMgr req).SecureCmpName) := by
  rw [securemgrPost_of_reaches hreach]
  constructor
  · intro xs descs hcmd hdesc hd
    have hrun : ∀ c : String, appCommand.get "CmdType" = GoVal.str c →
        (c = "addHashCWL" ∨ c = "delHashCWL") →
        ∃ ins, securemgrCommand h [Call.GetIPs, Call.DecryptByteToJSON r.Body] appCommand =
          securemgrDispatch h [Call.GetIPs, Call.DecryptByteToJSON r.Body] ⟨ins, c, descs⟩ := by
      intro c hc hmut
      refine ⟨match (appCommand.get "SecureMgr").assertString with
        | some s => s
        | none => "", ?_⟩
      have e1 : (GoVal.str c).assertString = some c := rfl
      have e2 : (GoVal.slice xs).assertSlice = some xs := rfl
      simp only [securemgrCommand, hc, e1, hmut, if_true, hdesc, e2,
        descLoop_of_describes hd]
    obtain ⟨ins, c, hrun'⟩ : ∃ ins c,
        securemgrCommand h [Call.GetIPs, Call.DecryptByteToJSON r.Body] appCommand =
          securemgrDispatch h [Call.GetIPs, Call.DecryptByteToJSON r.Body] ⟨ins, c, descs⟩ := by
      rcases hcmd with hc | hc
      · obtain ⟨ins, hi⟩ := hrun _ hc (Or.inl rfl)
        exact ⟨ins, _, hi⟩
      · obtain ⟨ins, hi⟩ := hrun _ hc (Or.inr rfl)
        exact ⟨ins, _, hi⟩
    refine ⟨⟨ins, c, descs⟩, ?_, rfl⟩
    simp [Result.securemgrRequests, hrun', securemgrDispatch_calls, securemgrRequestOf]
  · intro req hmem
    rcases securemgrCommand_shape h [Call.GetIPs, Call.DecryptByteToJSON r.Body] appCommand
      with hs | hs | ⟨req', hs⟩
    · simp [Result.securemgrRequests, hs, securemgrSendResp_calls, securemgrRequestOf] at hmem
    · simp [Result.securemgrRequests, hs, securemgrRequestOf] at hmem
    · rw [hs] at hmem ⊢
      simp only [Result.securemgrRequests, securemgrDispatch_calls, List.filterMap_append,
        List.filterMap_cons, List.filterMap_nil, securemgrRequestOf, List.nil_append,
        List.mem_singleton] at hmem
      subst hmem
      refine ⟨[("Message", GoVal.str (h.sapiRequestSecureMgr req).Message),
        ("SecureCmpName", GoVal.str (h.sapiRequestSecureMgr req).SecureCmpName)], ?_, ?_, ?_⟩
      · simp [Result.encrypted, securemgrDispatch_calls, encryptedOf]
      · simp [GoMap.get]
      · simp [GoMap.get]

/-- The hypotheses of C16 hold for a loopback `addHashCWL` request with two hashes: the request
dispatched carries both, in order. -/
theorem C16_witness :
    (APIV1RequestSecuremgrPost
      (sampleHandler (some (payloadWithDesc
        [GoVal.map [("ContainerHash", GoVal.str "ab12")],
         GoVal.map [("ContainerHash", GoVal.str "cd34")]])) (some []) none)
      localRequest).securemgrRequests =
      [{ SecureInsName := "verifier", CmdType := "addHashCWL",
         Desc := [{ ContainerHash := "ab12" }, { ContainerHash := "cd34" }] }] ∧
    (∃ req, (APIV1RequestSecuremgrPost
      (sampleHandler (some (payloadWithDesc
        [GoVal.map [("ContainerHash", GoVal.str "ab12")],
         GoVal.map [("ContainerHash", GoVal.str "cd34")]])) (some []) none)
      localRequest).securemgrRequests = [req] ∧
      req.Desc = [{ ContainerHash := "ab12" }, { ContainerHash := "cd34" }]) :=
  ⟨by decide,
    (C16_securemgr_dispatch_is_faithful
      (sampleHandler (some (payloadWithDesc
        [GoVal.map [("ContainerHash", GoVal.str "ab12")],
         GoVal.map [("ContainerHash", GoVal.str "cd34")]])) (some []) none)
      localRequest
      (payloadWithDesc
        [GoVal.map [("ContainerHash", GoVal.str "ab12")],
         GoVal.map [("ContainerHash", GoVal.str "cd34")]])
      (localRequest_reaches_securemgr _ _)).1
      [GoVal.map [("ContainerHash", GoVal.str "ab12")],
       GoVal.map [("ContainerHash", GoVal.str "cd34")]]
      [{ ContainerHash := "ab12" }, { ContainerHash := "cd34" }]
      (Or.inl rfl) rfl
      (List.Forall₂.cons ⟨[("ContainerHash", GoVal.str "ab12")], rfl, rfl⟩
        (List.Forall₂.cons ⟨[("ContainerHash", GoVal.str "cd34")], rfl, rfl⟩
          List.Forall₂.nil))⟩

/-! ## The shape of a run of `serviceCommand` -/

/-- The three ways `serviceCommand` ends: a rejection with the nil target info, a panic in the
loop, or the dispatch of one request followed by the response built from its result. -/
theorem serviceCommand_shape (h : Handler) (calls : List Call) (portStr : String)
    (appCommand : GoMap) :
    (∃ name, serviceCommand h calls portStr appCommand =
      serviceSendResp h (calls ++ (resolveByPort h portStr).1)
        h.orchestrationINVALID_PARAMETER name GoVal.nilMap) ∨
    serviceCommand h calls portStr appCommand =
      ⟨calls ++ (resolveByPort h portStr).1, Outcome.panic⟩ ∨
    ∃ req, serviceCommand h calls portStr appCommand =
      serviceSendResp h (calls ++ (resolveByPort h portStr).1 ++ [Call.RequestService req])
        (h.apiRequestService req).Message (h.apiRequestService req).ServiceName
        (GoVal.map
          [("ExecutionType", GoVal.str (h.apiRequestService req).RemoteTargetInfo.ExecutionType),
           ("Target", GoVal.str (h.apiRequestService req).RemoteTargetInfo.Target)]) := by
  unfold serviceCommand
  simp only []
  split
  · exact Or.inl ⟨_, rfl⟩
  · split
    · exact Or.inl ⟨_, rfl⟩
    · split
      · exact Or.inl ⟨_, rfl⟩
      · split
        · exact Or.inr (Or.inl rfl)
        · exact Or.inl ⟨_, rfl⟩
        · exact Or.inr (Or.inr ⟨_, rfl⟩)

theorem serviceSendResp_outcome_cases (h : Handler) (calls : List Call) (msg name : String)
    (ti : GoVal) :
    (serviceSendResp h calls msg name ti).outcome = Outcome.Response StatusServiceUnavailable ∨
    ∃ bytes, (serviceSendResp h calls msg name ti).outcome =
      Outcome.ResponseJSON bytes StatusOK := by
  simp only [serviceSendResp]
  split
  · exact Or.inl rfl
  · exact Or.inr ⟨_, rfl⟩

theorem securemgrSendResp_outcome_cases (h : Handler) (calls : List Call) (msg name : String) :
    (securemgrSendResp h calls msg name).outcome = Outcome.Response StatusServiceUnavailable ∨
    ∃ bytes, (securemgrSendResp h calls msg name).outcome =
      Outcome.ResponseJSON bytes StatusOK := by
  simp only [securemgrSendResp]
  split
  · exact Or.inl rfl
  · exact Or.inr ⟨_, rfl⟩

theorem resolveByPort_decrypted (h : Handler) (portStr : String) :
    (resolveByPort h portStr).1.filterMap decryptedOf = [] := by
  unfold resolveByPort
  split
  · simp
  · split <;> simp [decryptedOf]

/-- From parsing on, the service handler never answers 406 and decrypts nothing more. -/
theorem serviceCommand_after_decrypt (h : Handler) (calls : List Call) (portStr : String)
    (appCommand : GoMap) :
    (serviceCommand h calls portStr appCommand).outcome ≠
        Outcome.Response StatusNotAcceptable ∧
    (serviceCommand h calls portStr appCommand).calls.filterMap decryptedOf =
      calls.filterMap decryptedOf := by
  rcases serviceCommand_shape h calls portStr appCommand with ⟨name, hs⟩ | hs | ⟨req, hs⟩
  · rw [hs]
    refine ⟨?_, by simp [serviceSendResp_calls, resolveByPort_decrypted, decryptedOf]⟩
    rcases serviceSendResp_outcome_cases h (calls ++ (resolveByPort h portStr).1)
      h.orchestrationINVALID_PARAMETER name GoVal.nilMap with ho | ⟨b, ho⟩ <;>
      rw [ho] <;> simp [StatusServiceUnavailable, StatusNotAcceptable]
  · rw [hs]
    exact ⟨by simp, by simp [resolveByPort_decrypted]⟩
  · rw [hs]
    refine ⟨?_, by simp [serviceSendResp_calls, resolveByPort_decrypted, decryptedOf]⟩
    rcases serviceSendResp_outcome_cases h
      (calls ++ (resolveByPort h portStr).1 ++ [Call.RequestService req])
      (h.apiRequestService req).Message (h.apiRequestService req).ServiceName
      (GoVal.map
        [("ExecutionType", GoVal.str (h.apiRequestService req).RemoteTargetInfo.ExecutionType),
         ("Target", GoVal.str (h.apiRequestService req).RemoteTargetInfo.Target)])
      with ho | ⟨b, ho⟩ <;>
      rw [ho] <;> simp [StatusServiceUnavailable, StatusNotAcceptable]

/-- From parsing on, the secure-manager handler never answers 406 and decrypts nothing more. -/
theorem securemgrCommand_after_decrypt (h : Handler) (calls : List Call) (appCommand : GoMap) :
    (securemgrCommand h calls appCommand).outcome ≠ Outcome.Response StatusNotAcceptable ∧
    (securemgrCommand h calls appCommand).calls.filterMap decryptedOf =
      calls.filterMap decryptedOf := by
  rcases securemgrCommand_shape h calls appCommand with hs | hs | ⟨req, hs⟩
  · rw [hs]
    refine ⟨?_, by simp [securemgrSendResp_calls, decryptedOf]⟩
    rcases securemgrSendResp_outcome_cases h calls h.securemgrINVALID_PARAMETER "verifier"
      with ho | ⟨b, ho⟩ <;>
      rw [ho] <;> simp [StatusServiceUnavailable, StatusNotAcceptable]
  · rw [hs]
    exact ⟨by simp, rfl⟩
  · rw [hs]
    refine ⟨?_, by simp [securemgrDispatch_calls, decryptedOf]⟩
    simp only [securemgrDispatch]
    rcases securemgrSendResp_outcome_cases h (calls ++ [Call.RequestSecureMgr req])
      (h.sapiRequestSecureMgr req).Message (h.sapiRequestSecureMgr req).SecureCmpName
      with ho | ⟨b, ho⟩ <;>
      rw [ho] <;> simp [StatusServiceUnavailable, StatusNotAcceptable]

/-- With API and key set, the address set read and the origin extracted, the service handler
answers 406 exactly when the origin is refused, and otherwise decrypts the body, once. -/
theorem servicePost_origin_decision (h : Handler) (r : Request) (ips : List String)
    (addr portStr : String) (hapi : h.isSetAPI = true) (hkey : h.IsSetKey = true)
    (hips : h.GetIPs = some ips) (ho : serviceOrigin r.RemoteAddr = some (addr, portStr)) :
    ((APIV1RequestServicePost h r).outcome = Outcome.Response StatusNotAcceptable ↔
      originRefused ips addr = true) ∧
    (originRefused ips addr = false → (APIV1RequestServicePost h r).decrypted = [r.Body]) := by
  cases hr : originRefused ips addr with
  | true => simp [APIV1RequestServicePost, hapi, hkey, ho, hips, hr]
  | false =>
    cases hdec : h.DecryptByteToJSON r.Body with
    | none =>
      simp [APIV1RequestServicePost, hapi, hkey, ho, hips, hr, hdec, Result.decrypted,
        decryptedOf, StatusServiceUnavailable, StatusNotAcceptable]
    | some appCommand =>
      have hafter := serviceCommand_after_decrypt h
        [Call.GetIPs, Call.DecryptByteToJSON r.Body] portStr appCommand
      have hrun : APIV1RequestServicePost h r =
          serviceCommand h [Call.GetIPs, Call.DecryptByteToJSON r.Body] portStr appCommand := by
        simp [APIV1RequestServicePost, hapi, hkey, ho, hips, hr, hdec]
      rw [hrun]
      refine ⟨by simp [hafter.1], fun _ => ?_⟩
      rw [Result.decrypted, hafter.2]
      simp [decryptedOf]

/-- The same for the secure-manager handler. -/
theorem securemgrPost_origin_decision (h : Handler) (r : Request) (ips : List String)
    (addr : String) (hapi : h.isSetSecureAPI = true) (hkey : h.IsSetKey = true)
    (hips : h.GetIPs = some ips) (ho : securemgrOrigin r.RemoteAddr = some addr) :
    ((APIV1RequestSecuremgrPost h r).outcome = Outcome.Response StatusNotAcceptable ↔
      originRefused ips addr = true) ∧
    (originRefused ips addr = false → (APIV1RequestSecuremgrPost h r).decrypted = [r.Body]) := by
  cases hr : originRefused ips addr with
  | true => simp [APIV1RequestSecuremgrPost, hapi, hkey, ho, hips, hr]
  | false =>
    cases hdec : h.DecryptByteToJSON r.Body with
    | none =>
      simp [APIV1RequestSecuremgrPost, hapi, hkey, ho, hips, hr, hdec, Result.decrypted,
        decryptedOf, StatusServiceUnavailable, StatusNotAcceptable]
    | some appCommand =>
      have hafter := securemgrCommand_after_decrypt h
        [Call.GetIPs, Call.DecryptByteToJSON r.Body] appCommand
      have hrun : APIV1RequestSecuremgrPost h r =
          securemgrCommand h [Call.GetIPs, Call.DecryptByteToJSON r.Body] appCommand := by
        simp [APIV1RequestSecuremgrPost, hapi, hkey, ho, hips, hr, hdec]
      rw [hrun]
      refine ⟨by simp [hafter.1], fun _ => ?_⟩
      rw [Result.decrypted, hafter.2]
      simp [decryptedOf]

/-! ## C17 -/

/-- C17: in both handlers, with API and key set and `GetIPs` answering any address set `ips`
(the empty one included), a request whose `RemoteAddr` is `127.0.0.1:port`, `localhost:port`
or `[::1]:port` is not answered 406, and its body is handed to `DecryptByteToJSON`. -/
theorem C17_loopback_callers_are_never_refused (h : Handler) (r : Request)
    (ips : List String) (port : String) (hkey : h.IsSetKey = true)
    (hips : h.GetIPs = some ips)
    (hlocal : r.RemoteAddr = "127.0.0.1:" ++ port ∨ r.RemoteAddr = "localhost:" ++ port ∨
      r.RemoteAddr = "[::1]:" ++ port) :
    (h.isSetAPI = true →
      (APIV1RequestServicePost h r).outcome ≠ Outcome.Response StatusNotAcceptable ∧
      (APIV1RequestServicePost h r).decrypted = [r.Body]) ∧
    (h.isSetSecureAPI = true →
      (APIV1RequestSecuremgrPost h r).outcome ≠ Outcome.Response StatusNotAcceptable ∧
      (APIV1RequestSecuremgrPost h r).decrypted = [r.Body]) := by
  obtain ⟨hcolon, hallowed⟩ := loopback_origin_allowed r.RemoteAddr port ips hlocal
  constructor
  · intro hapi
    obtain ⟨portStr, ho⟩ := serviceOrigin_eq r.RemoteAddr hcolon
    have hdec := servicePost_origin_decision h r ips _ portStr hapi hkey hips ho
    refine ⟨fun h406 => ?_, hdec.2 hallowed⟩
    have := hdec.1.1 h406
    rw [hallowed] at this
    exact absurd this (by simp)
  · intro hapi
    have hdec := securemgrPost_origin_decision h r ips _ hapi hkey hips
      (securemgrOrigin_eq r.RemoteAddr)
    refine ⟨fun h406 => ?_, hdec.2 hallowed⟩
    have := hdec.1.1 h406
    rw [hallowed] at this
    exact absurd this (by simp)

/-- The hypotheses of C17 hold for the request from `127.0.0.1:4000` at a handler whose address
set is empty: both handlers decrypt its body and do not answer 406. -/
theorem C17_witness :
    ((APIV1RequestServicePost (sampleHandler (some (servicePayload [])) (some []) none)
        localRequest).outcome ≠ Outcome.Response StatusNotAcceptable ∧
      (APIV1RequestServicePost (sampleHandler (some (servicePayload [])) (some []) none)
        localRequest).decrypted = [localRequest.Body]) ∧
    ((APIV1RequestSecuremgrPost (sampleHandler (some (servicePayload [])) (some []) none)
        localRequest).outcome ≠ Outcome.Response StatusNotAcceptable ∧
      (APIV1RequestSecuremgrPost (sampleHandler (some (servicePayload [])) (some []) none)
        localRequest).decrypted = [localRequest.Body]) :=
  ⟨(C17_loopback_callers_are_never_refused
      (sampleHandler (some (servicePayload [])) (some []) none) localRequest [] "4000"
      rfl rfl (Or.inl (by decide))).1 rfl,
    (C17_loopback_callers_are_never_refused
      (sampleHandler (some (servicePayload [])) (some []) none) localRequest [] "4000"
      rfl rfl (Or.inl (by decide))).2 rfl⟩

/-! ## C18 -/

/-- C18: for every request that reaches parsing in `APIV1RequestServicePost`, every response
mapping handed to encryption has exactly the keys `Message`, `ServiceName` and
`RemoteTargetInfo`; when nothing was dispatched (a rejection) its `RemoteTargetInfo` is the nil
mapping, which has no entry; when a request was dispatched its `RemoteTargetInfo` is a mapping
with exactly the two keys `ExecutionType` and `Target`. -/
theorem C18_target_info_of_the_response (h : Handler) (r : Request) (portStr : String)
    (appCommand : GoMap) (hreach : ServiceReachesParsing h r portStr appCommand) :
    ∀ m ∈ (APIV1RequestServicePost h r).encrypted,
      GoMap.keys m = ["Message", "ServiceName", "RemoteTargetInfo"] ∧
      ((APIV1RequestServicePost h r).serviceRequests = [] →
        m.get "RemoteTargetInfo" = GoVal.nilMap ∧
        (m.get "RemoteTargetInfo").assertMap = some []) ∧
      ((APIV1RequestServicePost h r).serviceRequests ≠ [] →
        ∃ ti : GoMap, m.get "RemoteTargetInfo" = GoVal.map ti ∧
          GoMap.keys ti = ["ExecutionType", "Target"]) := by
  intro m hm
  rw [servicePost_of_reaches hreach] at hm ⊢
  rcases serviceCommand_shape h [Call.GetIPs, Call.DecryptByteToJSON r.Body] portStr appCommand
    with ⟨name, hs⟩ | hs | ⟨req, hs⟩
  · rw [hs] at hm ⊢
    simp only [Result.encrypted, serviceSendResp_calls, List.filterMap_append,
      resolveByPort_encrypted, List.filterMap_cons, List.filterMap_nil, encryptedOf,
      List.append_nil, List.nil_append, List.mem_singleton] at hm
    subst hm
    refine ⟨rfl, fun _ => ⟨by simp [GoMap.get], by simp [GoMap.get, GoVal.assertMap]⟩, ?_⟩
    intro hne
    exact absurd (by simp [Result.serviceRequests, serviceSendResp_calls,
      resolveByPort_serviceRequests, serviceRequestOf]) hne
  · rw [hs] at hm
    simp [Result.encrypted, resolveByPort_encrypted, encryptedOf] at hm
  · rw [hs] at hm ⊢
    simp only [Result.encrypted, serviceSendResp_calls, List.filterMap_append,
      resolveByPort_encrypted, List.filterMap_cons, List.filterMap_nil, encryptedOf,
      List.append_nil, List.nil_append, List.mem_singleton] at hm
    subst hm
    refine ⟨rfl, ?_, fun _ =>
      ⟨[("ExecutionType", GoVal.str (h.apiRequestService req).RemoteTargetInfo.ExecutionType),
        ("Target", GoVal.str (h.apiRequestService req).RemoteTargetInfo.Target)],
        by simp [GoMap.get], rfl⟩⟩
    intro hnil
    simp [Result.serviceRequests, serviceSendResp_calls, resolveByPort_serviceRequests,
      serviceRequestOf] at hnil

/-- The hypothesis of C18 holds for a rejected and for a dispatched loopback request: the nil
target info in the first, the two entries in the second. -/
theorem C18_witness :
    (∀ m ∈ (APIV1RequestServicePost
        (sampleHandler (some payloadNoName) (some []) none) localRequest).encrypted,
      GoMap.keys m = ["Message", "ServiceName", "RemoteTargetInfo"] ∧
      m.get "RemoteTargetInfo" = GoVal.nilMap) ∧
    (∀ m ∈ (APIV1RequestServicePost
        (sampleHandler (some (servicePayload [])) (some []) (some "resolved"))
        localRequest).encrypted,
      GoMap.keys m = ["Message", "ServiceName", "RemoteTargetInfo"] ∧
      ∃ ti : GoMap, m.get "RemoteTargetInfo" = GoVal.map ti ∧
        GoMap.keys ti = ["ExecutionType", "Target"]) ∧
    (APIV1RequestServicePost
      (sampleHandler (some payloadNoName) (some []) none) localRequest).encrypted.length = 1 ∧
    (APIV1RequestServicePost
      (sampleHandler (some (servicePayload [])) (some []) (some "resolved"))
      localRequest).encrypted.length = 1 :=
  ⟨fun m hm =>
      ⟨(C18_target_info_of_the_response _ _ "4000" payloadNoName
          (localRequest_reaches_service _ _) m hm).1,
        ((C18_target_info_of_the_response _ _ "4000" payloadNoName
          (localRequest_reaches_service _ _) m hm).2.1 (by decide)).1⟩,
    fun m hm =>
      ⟨(C18_target_info_of_the_response _ _ "4000" (servicePayload [])
          (localRequest_reaches_service _ _) m hm).1,
        (C18_target_info_of_the_response _ _ "4000" (servicePayload [])
          (localRequest_reaches_service _ _) m hm).2.2 (by decide)⟩,
    rfl, rfl⟩

/-! ## C19 -/

theorem originRefused_origin_iff (RemoteAddr : String) (ips : List String) :
    originRefused ips (if stringsContains RemoteAddr "::1" = true then "localhost"
      else beforeFirstColon RemoteAddr) = true ↔
    (stringsContains RemoteAddr "::1" = false ∧ beforeFirstColon RemoteAddr ≠ "localhost" ∧
      beforeFirstColon RemoteAddr ≠ "127.0.0.1" ∧ beforeFirstColon RemoteAddr ∉ ips) := by
  by_cases hc : stringsContains RemoteAddr "::1" = true
  · simp [hc, originRefused_eq_true_iff]
  · simp [hc, originRefused_eq_true_iff]

/-- C19: with API and key set and `GetIPs` answering `ips`, the handler answers 406 if and only
if `RemoteAddr` does not contain `::1` and its text before the first colon is neither
`localhost` nor `127.0.0.1` nor a member of `ips`; this for every `RemoteAddr` in
`APIV1RequestSecuremgrPost`, and in `APIV1RequestServicePost` for every `RemoteAddr` of the
`host:port` form (one that holds a colon) and in every run that gets to call `GetIPs`. Hence
a `RemoteAddr` that contains `::1` anywhere is never answered 406, and the two handlers decide
alike on every `RemoteAddr` that holds a colon. -/
theorem C19_characterization_of_406 (h : Handler) (r : Request) (ips : List String)
    (hkey : h.IsSetKey = true) (hips : h.GetIPs = some ips) :
    (h.isSetSecureAPI = true →
      ((APIV1RequestSecuremgrPost h r).outcome = Outcome.Response StatusNotAcceptable ↔
        (stringsContains r.RemoteAddr "::1" = false ∧
          beforeFirstColon r.RemoteAddr ≠ "localhost" ∧
          beforeFirstColon r.RemoteAddr ≠ "127.0.0.1" ∧
          beforeFirstColon r.RemoteAddr ∉ ips))) ∧
    (h.isSetAPI = true →
      (':' ∈ r.RemoteAddr.data ∨ Call.GetIPs ∈ (APIV1RequestServicePost h r).calls) →
      ((APIV1RequestServicePost h r).outcome = Outcome.Response StatusNotAcceptable ↔
        (stringsContains r.RemoteAddr "::1" = false ∧
          beforeFirstColon r.RemoteAddr ≠ "localhost" ∧
          beforeFirstColon r.RemoteAddr ≠ "127.0.0.1" ∧
          beforeFirstColon r.RemoteAddr ∉ ips))) ∧
    (stringsContains r.RemoteAddr "::1" = true →
      (h.isSetSecureAPI = true →
        (APIV1RequestSecuremgrPost h r).outcome ≠ Outcome.Response StatusNotAcceptable) ∧
      (h.isSetAPI = true →
        (APIV1RequestServicePost h r).outcome ≠ Outcome.Response StatusNotAcceptable)) ∧
    (h.isSetAPI = true → h.isSetSecureAPI = true → ':' ∈ r.RemoteAddr.data →
      ((APIV1RequestServicePost h r).outcome = Outcome.Response StatusNotAcceptable ↔
        (APIV1RequestSecuremgrPost h r).outcome = Outcome.Response StatusNotAcceptable)) := by
  have hsec : h.isSetSecureAPI = true →
      ((APIV1RequestSecuremgrPost h r).outcome = Outcome.Response StatusNotAcceptable ↔
        (stringsContains r.RemoteAddr "::1" = false ∧
          beforeFirstColon r.RemoteAddr ≠ "localhost" ∧
          beforeFirstColon r.RemoteAddr ≠ "127.0.0.1" ∧
          beforeFirstColon r.RemoteAddr ∉ ips)) := by
    intro hapi
    rw [(securemgrPost_origin_decision h r ips _ hapi hkey hips
      (securemgrOrigin_eq r.RemoteAddr)).1]
    exact originRefused_origin_iff r.RemoteAddr ips
  have hsvc : h.isSetAPI = true → ':' ∈ r.RemoteAddr.data →
      ((APIV1RequestServicePost h r).outcome = Outcome.Response StatusNotAcceptable ↔
        (stringsContains r.RemoteAddr "::1" = false ∧
          beforeFirstColon r.RemoteAddr ≠ "localhost" ∧
          beforeFirstColon r.RemoteAddr ≠ "127.0.0.1" ∧
          beforeFirstColon r.RemoteAddr ∉ ips)) := by
    intro hapi hcolon
    obtain ⟨portStr, ho⟩ := serviceOrigin_eq r.RemoteAddr hcolon
    rw [(servicePost_origin_decision h r ips _ portStr hapi hkey hips ho).1]
    exact originRefused_origin_iff r.RemoteAddr ips
  refine ⟨hsec, fun hapi hform => hsvc hapi
    (hform.elim id (colon_of_servicePost_calls_GetIPs h r)), ?_, ?_⟩
  · intro hc
    constructor
    · intro hapi h406
      have := ((hsec hapi).1 h406).1
      rw [hc] at this
      exact absurd this (by simp)
    · intro hapi h406
      have := ((hsvc hapi (colon_mem_of_contains _ hc)).1 h406).1
      rw [hc] at this
      exact absurd this (by simp)
  · intro hapi hsapi hcolon
    rw [hsvc hapi hcolon, hsec hsapi]

/-- C19 at a handler whose address set is `["192.168.0.10"]`: the caller `10.0.0.5:4000` is
answered 406 by both handlers, the caller `[2001:db8::1234]:5000` by neither. -/
theorem C19_witness :
    (APIV1RequestSecuremgrPost (sampleHandler none (some ["192.168.0.10"]) none)
      remoteRequest).outcome = Outcome.Response StatusNotAcceptable ∧
    (APIV1RequestServicePost (sampleHandler none (some ["192.168.0.10"]) none)
      remoteRequest).outcome = Outcome.Response StatusNotAcceptable ∧
    (APIV1RequestSecuremgrPost (sampleHandler none (some ["192.168.0.10"]) none)
      remoteV6Request).outcome ≠ Outcome.Response StatusNotAcceptable ∧
    (APIV1RequestServicePost (sampleHandler none (some ["192.168.0.10"]) none)
      remoteV6Request).outcome ≠ Outcome.Response StatusNotAcceptable :=
  ⟨((C19_characterization_of_406 (sampleHandler none (some ["192.168.0.10"]) none)
      remoteRequest ["192.168.0.10"] rfl rfl).1 rfl).2 (by decide),
    ((C19_characterization_of_406 (sampleHandler none (some ["192.168.0.10"]) none)
      remoteRequest ["192.168.0.10"] rfl rfl).2.1 rfl (Or.inl (by decide))).2 (by decide),
    ((C19_characterization_of_406 (sampleHandler none (some ["192.168.0.10"]) none)
      remoteV6Request ["192.168.0.10"] rfl rfl).2.2.1 (by decide)).1 rfl,
    ((C19_characterization_of_406 (sampleHandler none (some ["192.168.0.10"]) none)
      remoteV6Request ["192.168.0.10"] rfl rfl).2.2.1 (by decide)).2 rfl⟩

/-! ## C20 -/

theorem securemgrCommand_calls_prefix (h : Handler) (calls : List Call) (appCommand : GoMap) :
    ∃ more, (securemgrCommand h calls appCommand).calls = calls ++ more := by
  rcases securemgrCommand_shape h calls appCommand with hs | hs | ⟨req, hs⟩
  · exact ⟨_, by rw [hs, securemgrSendResp_calls]⟩
  · exact ⟨[], by rw [hs]; simp⟩
  · exact ⟨_, by rw [hs, securemgrDispatch_calls]⟩

/-- C20: `APIV1RequestSecuremgrPost` reads the address off every `RemoteAddr`, without an index
out of range, and with API and key set its first call is `GetIPs`; `APIV1RequestServicePost`
reads address and port without an index out of range if and only if `RemoteAddr` holds at
least one colon: with API and key set its first call is `GetIPs` exactly then, and otherwise it
panics before any call. -/
theorem C20_totality_of_origin_parsing :
    (∀ RemoteAddr, ∃ addr, securemgrOrigin RemoteAddr = some addr) ∧
    (∀ RemoteAddr, (∃ addr portStr, serviceOrigin RemoteAddr = some (addr, portStr)) ↔
      ':' ∈ RemoteAddr.data) ∧
    (∀ (h : Handler) (r : Request), h.isSetSecureAPI = true → h.IsSetKey = true →
      (APIV1RequestSecuremgrPost h r).calls.head? = some Call.GetIPs) ∧
    (∀ (h : Handler) (r : Request), h.isSetAPI = true → h.IsSetKey = true →
      ((APIV1RequestServicePost h r).calls.head? = some Call.GetIPs ↔
        ':' ∈ r.RemoteAddr.data) ∧
      (':' ∉ r.RemoteAddr.data →
        (APIV1RequestServicePost h r).outcome = Outcome.panic ∧
        (APIV1RequestServicePost h r).calls = [])) := by
  refine ⟨fun ra => ⟨_, securemgrOrigin_eq ra⟩, fun ra => ⟨?_, ?_⟩, ?_, ?_⟩
  · rintro ⟨addr, portStr, ho⟩
    by_contra hno
    rw [serviceOrigin_eq_none ra hno] at ho
    exact absurd ho (by simp)
  · intro hcolon
    obtain ⟨portStr, ho⟩ := serviceOrigin_eq ra hcolon
    exact ⟨_, portStr, ho⟩
  · intro h r hapi hkey
    have ho := securemgrOrigin_eq r.RemoteAddr
    cases hg : h.GetIPs with
    | none => simp [APIV1RequestSecuremgrPost, hapi, hkey, ho, hg]
    | some ips =>
      cases hr : originRefused ips (if stringsContains r.RemoteAddr "::1" = true
          then "localhost" else beforeFirstColon r.RemoteAddr) with
      | true => simp [APIV1RequestSecuremgrPost, hapi, hkey, ho, hg, hr]
      | false =>
        cases hdec : h.DecryptByteToJSON r.Body with
        | none => simp [APIV1RequestSecuremgrPost, hapi, hkey, ho, hg, hr, hdec]
        | some appCommand =>
          obtain ⟨more, hmore⟩ := securemgrCommand_calls_prefix h
            [Call.GetIPs, Call.DecryptByteToJSON r.Body] appCommand
          simp [APIV1RequestSecuremgrPost, hapi, hkey, ho, hg, hr, hdec, hmore]
  · intro h r hapi hkey
    by_cases hcolon : ':' ∈ r.RemoteAddr.data
    · obtain ⟨portStr, ho⟩ := serviceOrigin_eq r.RemoteAddr hcolon
      refine ⟨⟨fun _ => hcolon, fun _ => ?_⟩, fun hno => absurd hcolon hno⟩
      cases hg : h.GetIPs with
      | none => simp [APIV1RequestServicePost, hapi, hkey, ho, hg]
      | some ips =>
        cases hr : originRefused ips (if stringsContains r.RemoteAddr "::1" = true
            then "localhost" else beforeFirstColon r.RemoteAddr) with
        | true => simp [APIV1RequestServicePost, hapi, hkey, ho, hg, hr]
        | false =>
          cases hdec : h.DecryptByteToJSON r.Body with
          | none => simp [APIV1RequestServicePost, hapi, hkey, ho, hg, hr, hdec]
          | some appCommand =>
            have hrun : APIV1RequestServicePost h r =
                serviceCommand h [Call.GetIPs, Call.DecryptByteToJSON r.Body] portStr
                  appCommand := by
              simp [APIV1RequestServicePost, hapi, hkey, ho, hg, hr, hdec]
            rw [hrun, serviceCommand_calls]
            simp
    · have ho := serviceOrigin_eq_none r.RemoteAddr hcolon
      have hrun : APIV1RequestServicePost h r = ⟨[], Outcome.panic⟩ := by
        simp [APIV1RequestServicePost, hapi, hkey, ho]
      refine ⟨⟨fun hhead => ?_, fun hc => absurd hc hcolon⟩, fun _ => by simp [hrun]⟩
      rw [hrun] at hhead
      simp at hhead

/-- C20 at sample requests: the colon-less `10.0.0.5` makes the service handler panic before
any call while the secure-manager handler calls `GetIPs`; `10.0.0.5:4000` lets both call
`GetIPs`. -/
theorem C20_witness :
    (APIV1RequestSecuremgrPost (sampleHandler none (some []) none)
      colonlessRequest).calls.head? = some Call.GetIPs ∧
    (APIV1RequestServicePost (sampleHandler none (some []) none)
      remoteRequest).calls.head? = some Call.GetIPs ∧
    ((APIV1RequestServicePost (sampleHandler none (some []) none)
        colonlessRequest).outcome = Outcome.panic ∧
      (APIV1RequestServicePost (sampleHandler none (some []) none)
        colonlessRequest).calls = []) :=
  ⟨C20_totality_of_origin_parsing.2.2.1 _ colonlessRequest rfl rfl,
    (C20_totality_of_origin_parsing.2.2.2 (sampleHandler none (some []) none)
      remoteRequest rfl rfl).1.2 (by decide),
    (C20_totality_of_origin_parsing.2.2.2 (sampleHandler none (some []) none)
      colonlessRequest rfl rfl).2 (by decide)⟩

/-! ## The library functions on sample inputs -/

/-- `strings.Split` on sample addresses. -/
theorem stringsSplit_examples :
    stringsSplit "192.168.0.5:4000" ':' = ["192.168.0.5", "4000"] ∧
    stringsSplit "" ':' = [""] ∧
    stringsSplit "[::1]:80" ':' = ["[", "", "1]", "80"] ∧
    stringsContains "[2001:db8::1234]:5000" "::1" = true ∧
    stringsContains "10.0.0.1:80" "::1" = false := by decide

/-- `strconv.Atoi` on sample port texts. -/
theorem Atoi_examples :
    Atoi "4000" = some 4000 ∧ Atoi "-12" = some (-12) ∧ Atoi "+" = none ∧
    Atoi "" = none ∧ Atoi "12a" = none ∧ Atoi "4_000" = none ∧
    Atoi "9223372036854775808" = none ∧
    Atoi "9223372036854775807" = some 9223372036854775807 ∧
    Atoi "-9223372036854775808" = some (-9223372036854775808) := by decide

end ExternalHandler
